import Mathlib

/-!
Shallow embedding of the carnival-workshop reservation backend
(`SpecialCourse.controller.js`, `PaymentWebhook.controller.js`, the
`SpecialCourse` mongoose model, and `validation.service.js`).

Modelling conventions:
* Times are milliseconds since the epoch, as `Nat`.  JavaScript's
  `now - DELETE_PENDING_AFTER_MINUTES*60*1000` can be a negative date; with
  `Nat` subtraction the threshold truncates at `0`, which classifies every
  (non-negative) `createdAt` as "not stale" exactly as the negative JS date
  would, so the two agree on all representable states.
* Calendar dates are the canonical `YYYY-MM-DD` strings.  The source
  canonicalises every incoming date with `parseDateForQuery` /
  `validateDate` to a UTC-midnight `Date` and compares those for equality;
  the canonical string is a faithful stand-in for that value.
* The database (the `SpecialCourse` and `SpecialCoursePayment` collections)
  is a pair of lists; `countDocuments` is `List.countP`, `findOne` is
  `List.find?` and `deleteMany` is `List.filter`.
* External collaborators (HMAC computations, `JSON.stringify`,
  `razorpay.payments.fetch`, gateway order creation) are parameters.
-/

/-- The `status` enum of the `SpecialCourse` schema. -/
inductive RegStatus
  | pending_payment
  | registered
  | expired
  | cancelled
  deriving DecidableEq

/-- The `payment_status` enum of the `SpecialCourse` schema. -/
inductive PayStatus
  | pending
  | paid
  | expired
  | failed
  | refunded
  deriving DecidableEq

/-- The embedded `payment` subdocument of a `SpecialCourse` document.
Absent string fields are modelled as `""` (the schema has no defaults for
them other than `currency`). -/
structure PaymentInfo where
  razorpay_payment_id : String := ""
  razorpay_order_id : String := ""
  razorpay_signature : String := ""
  amount : Nat := 0
  currency : String := "INR"
  status : String := ""
  payment_date : Option Nat := none
  method : String := ""
  bank : String := ""
  wallet : String := ""
  vpa : String := ""
  deriving DecidableEq

/-- A `SpecialCourse` document (one reservation / registration attempt). -/
structure Reservation where
  registrationId : String
  carnivalName : String
  parentName : String := ""
  email : String
  phone : String
  childName : String
  childAge : String := ""
  selectedBatch : String
  batchTime : String := ""
  selectedDate : String
  materialType : Bool := false
  status : RegStatus
  payment_status : PayStatus
  payment : Option PaymentInfo := none
  payment_expires_at : Nat
  payment_confirmed_at : Option Nat := none
  expiredAt : Option Nat := none
  expiration_reason : Option String := none
  createdAt : Nat
  updatedAt : Nat := 0
  deriving DecidableEq

/-- Modelled from the spec: a `SpecialCoursePayment` document
(PaymentLogEntry).  The mongoose schema file `SpecialCoursePayment.model`
is not part of the sources; per the spec it is "an immutable append-only
record per gateway event observed … keyed by gateway payment id;
many-to-one with Reservation via the scope code".  The fields are the ones
the controllers write. -/
structure PaymentLog where
  registrationId : String := ""
  razorpay_payment_id : String := ""
  razorpay_order_id : String := ""
  amount : Nat := 0
  currency : String := "INR"
  status : String := ""
  method : String := ""
  source : String := ""
  deriving DecidableEq

/-- The persistent state: the `SpecialCourse` collection and the
`SpecialCoursePayment` collection. -/
structure DB where
  regs : List Reservation
  logs : List PaymentLog
  deriving DecidableEq

/-- Constant `BATCH_CAPACITY`. -/
def BATCH_CAPACITY : Nat := 20

/-- Constant `MAX_PENDING_MINUTES` (display TTL). -/
def MAX_PENDING_MINUTES : Nat := 15

/-- Constant `DELETE_PENDING_AFTER_MINUTES` (deletion TTL). -/
def DELETE_PENDING_AFTER_MINUTES : Nat := 10

/-- Milliseconds of the deletion TTL: `DELETE_PENDING_AFTER_MINUTES * 60 * 1000`. -/
def DELETE_MS : Nat := DELETE_PENDING_AFTER_MINUTES * 60 * 1000

/-- Milliseconds of the display TTL: `MAX_PENDING_MINUTES * 60 * 1000`. -/
def MAX_PENDING_MS : Nat := MAX_PENDING_MINUTES * 60 * 1000

/-- The exempted unlimited-capacity "online" date. -/
def onlineDate : String := "2026-01-25"

/-- Hook `SpecialCourseSchema.pre('save')`: auto-expire a `pending_payment`
document whose `payment_expires_at` has passed, and bump `updatedAt`.
Every mongoose `save()` in the controllers runs through this hook. -/
def preSaveHook (now : Nat) (r : Reservation) : Reservation :=
  if r.status = RegStatus.pending_payment ∧ r.payment_expires_at < now then
    { r with
        status := RegStatus.expired
        payment_status := PayStatus.expired
        expiration_reason := some "Payment timeout (auto-expire on save)"
        expiredAt := some now
        updatedAt := now }
  else
    { r with updatedAt := now }

/-- Scope-key match used by every `countDocuments` query of
`checkSlotAvailability`: same carnival, batch and (canonical) date. -/
def inScope (c b d : String) (r : Reservation) : Bool :=
  r.carnivalName == c && r.selectedBatch == b && r.selectedDate == d

/-- The `oldPendingQuery` of `checkSlotAvailability`: a stale pending hold
in the queried scope key (`status=pending_payment`, `payment_status=pending`,
`createdAt < now - 10min`). -/
def isStalePending (now : Nat) (c b d : String) (r : Reservation) : Bool :=
  inScope c b d r
    && r.status == RegStatus.pending_payment
    && r.payment_status == PayStatus.pending
    && decide (r.createdAt < now - DELETE_MS)

/-- The `activePendingQuery`: a live pending hold in the scope key
(`createdAt >= now - 10min`). -/
def isActivePending (now : Nat) (c b d : String) (r : Reservation) : Bool :=
  inScope c b d r
    && r.status == RegStatus.pending_payment
    && r.payment_status == PayStatus.pending
    && decide (now - DELETE_MS ≤ r.createdAt)

/-- The paid-registration query: `status=registered`, `payment_status=paid`
in the scope key. -/
def isPaidInScope (c b d : String) (r : Reservation) : Bool :=
  inScope c b d r
    && r.status == RegStatus.registered
    && r.payment_status == PayStatus.paid

/-- Count of confirmed (registered+paid) reservations in a scope key. -/
def confirmedCount (c b d : String) (db : DB) : Nat :=
  db.regs.countP (isPaidInScope c b d)

/-- Count of active pending holds in a scope key. -/
def activeHoldCount (now : Nat) (c b d : String) (db : DB) : Nat :=
  db.regs.countP (isActivePending now c b d)

/-- The fields of the availability snapshot returned by
`checkSlotAvailability` that the rest of the program reads. -/
structure SlotInfo where
  registeredCount : Nat
  availableSlots : Nat
  isFull : Bool
  capacity : Nat
  isOnline : Bool
  paidCount : Nat
  activePendingCount : Nat
  oldPendingDeleted : Nat
  slotStatus : String
  deriving DecidableEq

/-- The lazy-sweep side effect of `checkSlotAvailability`: delete stale
pending holds in the scope key (guarded by `countDocuments > 0`), then
attempt the payment-record cascade by running
`find(oldPendingQuery).distinct('registrationId')` — on the state *after*
`deleteMany`, exactly as the source does — and delete the logs of the ids
found. -/
def slotSweep (now : Nat) (c b d : String) (db : DB) : DB :=
  if 0 < db.regs.countP (isStalePending now c b d) then
    let regs1 := db.regs.filter (fun r => !isStalePending now c b d r)
    let regIds := (regs1.filter (isStalePending now c b d)).map
      (fun r => r.registrationId)
    { regs := regs1
      logs :=
        if 0 < regIds.length then
          db.logs.filter (fun l => !regIds.contains l.registrationId)
        else db.logs }
  else db

/-- Function `checkSlotAvailability(carnivalName, batchName, selectedDate)`:
run the lazy sweep, then compute the counts on the swept state and build
the snapshot.  `Math.max(0, capacity - occupied)` is `Nat` subtraction. -/
def checkSlotAvailability (now : Nat) (c b d : String) (db : DB) :
    SlotInfo × DB :=
  let oldPendingCount := db.regs.countP (isStalePending now c b d)
  let db1 := slotSweep now c b d db
  let paidCount := db1.regs.countP (isPaidInScope c b d)
  let activePendingCount := db1.regs.countP (isActivePending now c b d)
  let isOnline := d == onlineDate
  let effectiveCapacity := if isOnline then 9999 else BATCH_CAPACITY
  let registeredCount := paidCount + activePendingCount
  let availableSlots := effectiveCapacity - registeredCount
  let slotStatus :=
    if !isOnline && availableSlots == 0 then "full"
    else if !isOnline && availableSlots ≤ 3 then "limited"
    else "available"
  ({ registeredCount := registeredCount
     availableSlots := if isOnline then 999 else availableSlots
     isFull := !isOnline && availableSlots == 0
     capacity := effectiveCapacity
     isOnline := isOnline
     paidCount := paidCount
     activePendingCount := activePendingCount
     oldPendingDeleted := oldPendingCount
     slotStatus := slotStatus },
   db1)

/-- Predicate of `cleanupExpiredRegistrations` (the sweep): delete every system-wide
stale pending hold (`status=pending_payment`, `payment_status=pending`,
`createdAt < now - 10min`) together with its payment records.  Here the
source collects the `registrationId`s *before* deleting, so the cascade
works. -/
def isStaleSystemWide (now : Nat) (r : Reservation) : Bool :=
  r.status == RegStatus.pending_payment
    && r.payment_status == PayStatus.pending
    && decide (r.createdAt < now - DELETE_MS)

/-- Function `cleanupExpiredRegistrations`: the deletion itself. -/
def cleanupExpiredRegistrations (now : Nat) (db : DB) : DB :=
  let ids := (db.regs.filter (isStaleSystemWide now)).map
    (fun r => r.registrationId)
  if 0 < ids.length then
    { regs := db.regs.filter (fun r => !ids.contains r.registrationId)
      logs := db.logs.filter (fun l => !ids.contains l.registrationId) }
  else db

/-- JS `String.prototype.trim` on the ASCII whitespace fragment, over the
character list (kernel-reducible, unlike `String.trim`). -/
def trimChars (cs : List Char) : List Char :=
  ((cs.dropWhile Char.isWhitespace).reverse.dropWhile Char.isWhitespace).reverse

/-- JS `.trim()` as a `String` operation. -/
def strTrim (s : String) : String := String.mk (trimChars s.data)

/-- JS `.toLowerCase()` on the ASCII fragment. -/
def strToLower (s : String) : String := String.mk (s.data.map Char.toLower)

/-- JS `split('-')` over the character list. -/
def splitDashAux : List Char → List (List Char)
  | [] => [[]]
  | c :: rest =>
      let r := splitDashAux rest
      if c = '-' then [] :: r
      else
        match r with
        | h :: t => (c :: h) :: t
        | [] => [[c]]

/-- Lexicographic character-list comparison (JS `<` on strings, which on
canonical `YYYY-MM-DD` strings coincides with comparing the UTC dates). -/
def chLt : List Char → List Char → Bool
  | [], [] => false
  | [], _ :: _ => true
  | _ :: _, [] => false
  | x :: xs, y :: ys =>
      if x < y then true else if y < x then false else chLt xs ys

/-!
### JavaScript `RegExp` fragment

`checkDuplicateRegistration` builds `new RegExp('^' + childName.trim() + '$', 'i')`
from user input.  We model the constructor's syntax check and, for matching,
the fragment actually exercised by the development: patterns made of literal
characters and `.`.  Constructs outside that fragment make `patToks` return
`none` (treated as a non-match); the theorems below only evaluate the
matcher inside the fragment.  Case folding is ASCII (`Char.toLower`),
matching the inputs considered.
-/

/-- Syntax scan of a JS regular-expression pattern: `d` is the open-paren
depth, `q` whether the previous item can take a quantifier, `ic` whether we
are inside a `[...]` character class.  `false` means the `RegExp`
constructor throws a `SyntaxError`. -/
def rxScanAux : List Char → Nat → Bool → Bool → Bool
  | [], d, _, ic => !ic && d == 0
  | '\\' :: [], _, _, _ => false
  | '\\' :: _ :: rest, d, _, ic => rxScanAux rest d true ic
  | c :: rest, d, q, true =>
      if c = ']' then rxScanAux rest d true false
      else rxScanAux rest d q true
  | '(' :: rest, d, _, false => rxScanAux rest (d + 1) false false
  | ')' :: rest, d, _, false =>
      if d == 0 then false else rxScanAux rest (d - 1) true false
  | '[' :: rest, d, _, false => rxScanAux rest d false true
  | '*' :: rest, d, q, false => q && rxScanAux rest d false false
  | '+' :: rest, d, q, false => q && rxScanAux rest d false false
  | '?' :: rest, d, q, false => q && rxScanAux rest d false false
  | '|' :: rest, d, _, false => rxScanAux rest d false false
  | _ :: rest, d, _, false => rxScanAux rest d true false

/-- Whether `new RegExp(p, 'i')` constructs without throwing. -/
def jsRegexValid (p : String) : Bool :=
  rxScanAux p.data 0 false false

/-- The anchored pattern `'^' + childName.trim() + '$'` built by
`checkDuplicateRegistration`. -/
def dupNamePattern (childName : String) : String :=
  "^" ++ strTrim childName ++ "$"

/-- A token of the modelled pattern fragment: a literal character or `.`. -/
inductive RTok
  | lit (c : Char)
  | anyChar
  deriving DecidableEq

/-- Tokenise a pattern body.  `none` when the pattern uses regex constructs
outside the modelled fragment (classes, groups, quantifiers, escapes). -/
def patToks : List Char → Option (List RTok)
  | [] => some []
  | '.' :: rest => (patToks rest).map (fun ts => RTok.anyChar :: ts)
  | c :: rest =>
      if c ∈ ['\\', '(', ')', '[', ']', '{', '}', '*', '+', '?', '|', '^', '$']
      then none
      else (patToks rest).map (fun ts => RTok.lit c :: ts)

/-- Anchored, case-insensitive match of a token list against a string. -/
def toksMatch : List RTok → List Char → Bool
  | [], [] => true
  | [], _ :: _ => false
  | _ :: _, [] => false
  | RTok.lit c :: ts, x :: xs => (c.toLower == x.toLower) && toksMatch ts xs
  | RTok.anyChar :: ts, _ :: xs => toksMatch ts xs

/-- Evaluation of `new RegExp('^' + body + '$', 'i').test s` for patterns in the modelled
fragment. -/
def jsAnchoredIMatch (body s : String) : Bool :=
  match patToks body.data with
  | some ts => toksMatch ts s.data
  | none => false

/-!
### `validation.service.js`
-/

/-- JS `\w`: `[A-Za-z0-9_]`. -/
def isWordChar (c : Char) : Bool :=
  c.isAlpha || c.isDigit || c == '_'

/-- A small regular-expression AST used to transcribe the fixed validation
patterns of `validation.service.js`. -/
inductive Rx
  | eps
  | tok (p : Char → Bool)
  | seq (a b : Rx)
  | alt (a b : Rx)
  | star (a : Rx)

/-- Structural size of an `Rx`, used to bound the matcher's fuel. -/
def rxSize : Rx → Nat
  | Rx.eps => 1
  | Rx.tok _ => 1
  | Rx.seq a b => rxSize a + rxSize b + 1
  | Rx.alt a b => rxSize a + rxSize b + 1
  | Rx.star a => rxSize a + 1

/-- Fuel-bounded backtracking matcher in continuation style. -/
def rxMatch : Nat → Rx → List Char → (List Char → Bool) → Bool
  | 0, _, _, _ => false
  | _ + 1, Rx.eps, s, k => k s
  | _ + 1, Rx.tok _, [], _ => false
  | _ + 1, Rx.tok p, c :: s, k => p c && k s
  | n + 1, Rx.seq a b, s, k => rxMatch n a s (fun s1 => rxMatch n b s1 k)
  | n + 1, Rx.alt a b, s, k => rxMatch n a s k || rxMatch n b s k
  | n + 1, Rx.star a, s, k =>
      k s || rxMatch n a s (fun s1 => rxMatch n (Rx.star a) s1 k)

/-- Whole-string test of a transcribed pattern (the validation patterns are
anchored `^...$`). -/
def rxTest (rx : Rx) (s : String) : Bool :=
  rxMatch ((rxSize rx + 2) * (s.length + 2) * 2) rx s.data
    (fun rest => rest.isEmpty)

/-- Pattern `a+`. -/
def rxPlus (a : Rx) : Rx := Rx.seq a (Rx.star a)

/-- Pattern `a?`. -/
def rxOpt (a : Rx) : Rx := Rx.alt a Rx.eps

/-- Pattern `\w+`. -/
def wordRun : Rx := rxPlus (Rx.tok isWordChar)

/-- Pattern `\w+([\.-]?\w+)*`, the local and domain parts of the email pattern. -/
def emailPart : Rx :=
  Rx.seq wordRun
    (Rx.star (Rx.seq (rxOpt (Rx.tok (fun c => c == '.' || c == '-'))) wordRun))

/-- Pattern `(\.\w{2,3})+`, the top-level-domain part of the email pattern. -/
def emailTld : Rx :=
  rxPlus (Rx.seq (Rx.tok (fun c => c == '.'))
    (Rx.seq (Rx.tok isWordChar) (Rx.seq (Rx.tok isWordChar) (rxOpt (Rx.tok isWordChar)))))

/-- Pattern `^\w+([\.-]?\w+)*@\w+([\.-]?\w+)*(\.\w{2,3})+$`. -/
def emailRx : Rx :=
  Rx.seq emailPart (Rx.seq (Rx.tok (fun c => c == '@')) (Rx.seq emailPart emailTld))

/-- Computation `phone.trim().replace(/\s+|[-+()]/g, '')`. -/
def cleanPhone (s : String) : String :=
  String.mk ((trimChars s.data).filter
    (fun c => !(c.isWhitespace || c == '-' || c == '+' || c == '(' || c == ')')))

/-- Check `cleanPhone.length === 10 && /^[6-9]\d{9}$/.test(cleanPhone)`. -/
def validPhone (s : String) : Bool :=
  let cp := (cleanPhone s).data
  cp.length == 10 &&
    (match cp with
     | c :: rest => ('6' ≤ c && c ≤ '9') && rest.all Char.isDigit
     | [] => false)

/-- Accumulate the numeric value of a leading digit run (later characters
are ignored, as `parseInt` does). -/
def digitsValAux : List Char → Nat → Nat
  | c :: rest, acc =>
      if c.isDigit then digitsValAux rest (acc * 10 + (c.toNat - '0'.toNat))
      else acc
  | [], acc => acc

/-- The value of a leading digit run; `none` when the first character is not
a digit (`parseInt` yields `NaN`). -/
def leadingDigits : List Char → Option Nat
  | [] => none
  | c :: rest =>
      if c.isDigit then some (digitsValAux (c :: rest) 0) else none

/-- JS `parseInt` on the decimal fragment: optional sign, then a leading
digit run; trailing characters ignored; `none` for `NaN`. -/
def parseIntJS (s : String) : Option Int :=
  match trimChars s.data with
  | '-' :: rest => (leadingDigits rest).map (fun n => -(n : Int))
  | '+' :: rest => (leadingDigits rest).map (fun n => (n : Int))
  | cs => (leadingDigits cs).map (fun n => (n : Int))

/-- Canonical `YYYY-MM-DD` shape: exactly three dash-separated nonempty
digit runs (the fragment of inputs the frontend sends; `validateDate`
otherwise builds an invalid `Date` or a non-canonical string). -/
def dateFormatOk (s : String) : Bool :=
  match splitDashAux s.data with
  | [y, m, d] =>
      !y.isEmpty && y.all Char.isDigit
        && !m.isEmpty && m.all Char.isDigit
        && !d.isEmpty && d.all Char.isDigit
  | _ => false

/-- Lexicographic comparison of canonical `YYYY-MM-DD` strings, which
coincides with the UTC-date comparison `date < todayUTC` of the source. -/
def dateStrLt (a b : String) : Bool :=
  chLt a.data b.data

/-- Function `validateDate(dateString, availableDates)`: parseable, listed among the
available dates when any are given, and not in the past.  `todayStr` is the
canonical string of the source's `new Date()` day. -/
def validateDate (dateString : String) (availableDates : List String)
    (todayStr : String) : Bool :=
  dateFormatOk dateString
    && (availableDates.isEmpty || availableDates.contains dateString)
    && !dateStrLt dateString todayStr

/-- Function `validateBatch`: the batch string contains the `⏰` marker. -/
def validateBatch (batchName : String) : Bool :=
  batchName.data.contains '⏰'

/-- Function `extractBatchTime`: the text after `⏰` and following whitespace, or the
whole batch string when the marker is absent. -/
def extractBatchTime (b : String) : String :=
  match b.data.dropWhile (fun c => c ≠ '⏰') with
  | [] => b
  | _ :: rest =>
      let after := rest.dropWhile Char.isWhitespace
      if after.isEmpty then b else String.mk after

/-- The body of a registration request (`req.body` of `register`). -/
structure RegisterInput where
  carnivalName : String
  parentName : String
  email : String
  phone : String
  childName : String
  childAge : String
  selectedBatch : String
  selectedDate : String
  availableDates : List String
  materialType : Bool := false
  deriving DecidableEq

/-- Function `validateRegistrationData` of `validation.service.js` (field-by-field;
`true` iff the `errors` object stays empty). -/
def validateRegistrationData (todayStr : String) (data : RegisterInput) : Bool :=
  (!(strTrim data.parentName).isEmpty && 2 ≤ (strTrim data.parentName).length)
    && (!(strTrim data.email).isEmpty && rxTest emailRx (strTrim data.email))
    && (!(strTrim data.phone).isEmpty && validPhone data.phone)
    && (!(strTrim data.childName).isEmpty && 2 ≤ (strTrim data.childName).length)
    && (!(strTrim data.childAge).isEmpty
        && (match parseIntJS (strTrim data.childAge) with
            | some a => decide (3 ≤ a) && decide (a ≤ 16)
            | none => false))
    && (!(strTrim data.selectedDate).isEmpty
        && validateDate data.selectedDate data.availableDates todayStr)
    && !(strTrim data.selectedBatch).isEmpty

/-- Result of `checkDuplicateRegistration`: `found` is the `exists` field of
the source's return value; `errored` marks the `catch` branch (the source
then also returns `exists: false`). -/
structure DupResult where
  found : Bool
  data : Option Reservation := none
  errored : Bool := false
  deriving DecidableEq

/-- Function `checkDuplicateRegistration(carnivalName, email, phone, childName,
selectedDate)`: find a registered+paid reservation in the same carnival and
date whose child name matches the case-insensitive anchored regex built
from the trimmed submitted name, and whose parent email or phone matches.
An invalid pattern makes the constructor throw; the `catch` returns
`exists: false`. -/
def checkDuplicateRegistration (carnivalName email phone childName selectedDate : String)
    (db : DB) : DupResult :=
  if jsRegexValid (dupNamePattern childName) then
    match db.regs.find? (fun r =>
        r.carnivalName == carnivalName
          && r.selectedDate == selectedDate
          && jsAnchoredIMatch (strTrim childName) r.childName
          && r.status == RegStatus.registered
          && r.payment_status == PayStatus.paid
          && (r.email == strTrim (strToLower email)
              || r.phone == strTrim phone)) with
    | some r => { found := true, data := some r }
    | none => { found := false }
  else { found := false, errored := true }

/-- The numeric suffix of a registration id matching `^LS-RD26-\d{5}$`. -/
def regIdNum (s : String) : Option Nat :=
  match s.data with
  | 'L' :: 'S' :: '-' :: 'R' :: 'D' :: '2' :: '6' :: '-' :: ds =>
      if ds.length == 5 && ds.all Char.isDigit then some (digitsValAux ds 0)
      else none
  | _ => none

/-- Computation `String(n).padStart(5, '0')`. -/
def padNum5 (n : Nat) : String :=
  let s := toString n
  if s.length < 5 then String.mk (List.replicate (5 - s.length) '0') ++ s else s

/-- Function `generateRegistrationId`: one more than the largest issued suffix (the
source takes the lexicographically largest matching id, which for the
zero-padded fixed-width format is the numerically largest). -/
def generateRegistrationId (db : DB) : String :=
  let nums := db.regs.filterMap (fun r => regIdNum r.registrationId)
  "LS-RD26-" ++ padNum5 (nums.foldl max 0 + 1)

/-- Outcome of the `register` endpoint. -/
inductive RegisterResult
  | validationFailed
  | duplicate (existingId : String)
  | slotFull
  | created (registrationId : String)
  deriving DecidableEq

/-- The `register` endpoint: validation, duplicate guard, slot check (with
its lazy-sweep side effect), then insertion of the new `pending_payment`
hold, whose `save()` runs the pre-save hook. -/
def register (todayStr : String) (now : Nat) (inp : RegisterInput) (db : DB) :
    RegisterResult × DB :=
  if !validateRegistrationData todayStr inp then (RegisterResult.validationFailed, db)
  else if inp.carnivalName.isEmpty then (RegisterResult.validationFailed, db)
  else if !validateDate inp.selectedDate inp.availableDates todayStr then
    (RegisterResult.validationFailed, db)
  else if !validateBatch inp.selectedBatch then (RegisterResult.validationFailed, db)
  else
    let dup := checkDuplicateRegistration inp.carnivalName inp.email inp.phone
      inp.childName inp.selectedDate db
    if dup.found then
      (RegisterResult.duplicate
        (match dup.data with
         | some r => r.registrationId
         | none => ""), db)
    else
      if (checkSlotAvailability now inp.carnivalName inp.selectedBatch
          inp.selectedDate db).1.isFull then
        (RegisterResult.slotFull,
         (checkSlotAvailability now inp.carnivalName inp.selectedBatch
           inp.selectedDate db).2)
      else
        let db1 := (checkSlotAvailability now inp.carnivalName inp.selectedBatch
          inp.selectedDate db).2
        let registrationId := generateRegistrationId db1
        let r : Reservation :=
          { registrationId := registrationId
            carnivalName := inp.carnivalName
            parentName := strTrim inp.parentName
            email := strTrim (strToLower inp.email)
            phone := strTrim inp.phone
            childName := strTrim inp.childName
            childAge := strTrim inp.childAge
            selectedBatch := strTrim inp.selectedBatch
            batchTime := extractBatchTime inp.selectedBatch
            selectedDate := inp.selectedDate
            materialType := inp.materialType
            status := RegStatus.pending_payment
            payment_status := PayStatus.pending
            payment_expires_at := now + MAX_PENDING_MS
            createdAt := now
            updatedAt := now }
        (RegisterResult.created registrationId,
         { db1 with regs := db1.regs ++ [preSaveHook now r] })

/-!
### Payment paths (`verifyPayment`, `createOrder`, `PaymentWebhook.controller.js`)
-/

/-- A gateway payment entity (`req.body.payload.payment.entity` of a
webhook); `amount` is in the smallest currency unit. -/
structure GatewayPayment where
  id : String
  order_id : String
  amount : Nat := 0
  currency : String := "INR"
  method : String := ""
  bank : String := ""
  wallet : String := ""
  vpa : String := ""
  deriving DecidableEq

/-- A webhook request body: the event name, and the payment entity when the
body carries one (`none` models a body on which accessing
`payload.payment.entity` throws). -/
structure WebhookBody where
  event : String
  payload : Option GatewayPayment
  deriving DecidableEq

/-- A webhook HTTP request: the `x-razorpay-signature` header and the body. -/
structure WebhookRequest where
  signatureHeader : Option String
  body : WebhookBody
  deriving DecidableEq

/-- Payment details returned by `razorpay.payments.fetch`. -/
structure FetchedPayment where
  method : String := ""
  bank : String := ""
  wallet : String := ""
  vpa : String := ""
  deriving DecidableEq

/-- The external collaborators: the two HMAC-SHA256 computations (client
verification secret and webhook secret), `JSON.stringify`, and the gateway
payment-fetch call (`none` models a failed fetch). -/
structure Env where
  hmacSig : String → String
  webhookHmac : String → String
  stringifyBody : WebhookBody → String
  paymentsFetch : String → Option FetchedPayment

/-- The body of a `verify-payment` request. -/
structure VerifyInput where
  razorpay_payment_id : String
  razorpay_order_id : String
  razorpay_signature : String
  registrationId : String
  pdMethod : String := ""
  pdBank : String := ""
  pdWallet : String := ""
  pdVpa : String := ""
  deriving DecidableEq

/-- Outcome of the `verifyPayment` endpoint. -/
inductive VerifyResult
  | missingFields
  | notFound
  | alreadyPaid
  | badStatus (s : RegStatus)
  | expiredDeleted
  | slotFull
  | invalidSignature
  | success
  deriving DecidableEq

/-- The fee derived server-side from `materialType` (Jan 25 online 299,
with material 499). -/
def verifyAmount (r : Reservation) : Nat :=
  if r.materialType then 499 else 299

/-- The `razorpay.payments.fetch` call of `verifyPayment` (skipped for the
`direct_payment` sentinel; `none` also models a failed fetch). -/
def verifyFetched (env : Env) (inp : VerifyInput) : Option FetchedPayment :=
  if !(inp.razorpay_payment_id == "direct_payment") then
    env.paymentsFetch inp.razorpay_payment_id
  else none

/-- The payment method stored by `verifyPayment`: the fetched method, else
the client-supplied `paymentDetails.method`, else `'card'`. -/
def verifyActualMethod (env : Env) (inp : VerifyInput) : String :=
  match verifyFetched env inp with
  | some f => if f.method.isEmpty then "card" else f.method
  | none =>
      if !(inp.razorpay_payment_id == "direct_payment") then
        (if inp.pdMethod.isEmpty then "card" else inp.pdMethod)
      else "card"

/-- The bank/wallet/vpa snapshot stored by `verifyPayment`. -/
def verifyInfo (env : Env) (inp : VerifyInput) : FetchedPayment :=
  match verifyFetched env inp with
  | some f => f
  | none => {}

/-- Computation `razorpay_order_id || registration.payment?.razorpay_order_id
|| 'direct_payment'`. -/
def verifyOrdId (inp : VerifyInput) (r : Reservation) : String :=
  if !inp.razorpay_order_id.isEmpty then inp.razorpay_order_id
  else
    match r.payment with
    | some p =>
        if !p.razorpay_order_id.isEmpty then p.razorpay_order_id
        else "direct_payment"
    | none => "direct_payment"

/-- The single confirming update of `verifyPayment`: payment snapshot,
`status=registered`, `payment_status=paid`, `payment_confirmed_at`, through
the pre-save hook. -/
def verifyUpdated (env : Env) (now : Nat) (inp : VerifyInput) (r : Reservation) :
    Reservation :=
  preSaveHook now
    { r with
        payment := some
          { razorpay_payment_id := inp.razorpay_payment_id
            razorpay_order_id := verifyOrdId inp r
            razorpay_signature :=
              if !inp.razorpay_signature.isEmpty then inp.razorpay_signature
              else "direct_payment"
            amount := verifyAmount r
            currency := "INR"
            status := "paid"
            payment_date := some now
            method := verifyActualMethod env inp
            bank :=
              if !(verifyInfo env inp).bank.isEmpty then (verifyInfo env inp).bank
              else inp.pdBank
            wallet :=
              if !(verifyInfo env inp).wallet.isEmpty then (verifyInfo env inp).wallet
              else inp.pdWallet
            vpa :=
              if !(verifyInfo env inp).vpa.isEmpty then (verifyInfo env inp).vpa
              else inp.pdVpa }
        status := RegStatus.registered
        payment_status := PayStatus.paid
        payment_confirmed_at := some now
        updatedAt := now }

/-- The payment-log entry appended by a successful `verifyPayment`. -/
def verifyNewLog (env : Env) (inp : VerifyInput) (r : Reservation) : PaymentLog :=
  { registrationId := inp.registrationId
    razorpay_payment_id := inp.razorpay_payment_id
    razorpay_order_id :=
      if !inp.razorpay_order_id.isEmpty then inp.razorpay_order_id
      else "direct_payment"
    amount := verifyAmount r
    currency := "INR"
    status := "captured"
    method := verifyActualMethod env inp
    source := "frontend_verification" }

/-- Function `verifyPayment`: the client payment-confirmation path, with every check
in source order: missing fields, lookup, paid short-circuit, status guard,
lazy-expiry deletion, slot re-check (with its sweep side effect), signature
verification (bypassed by the `direct_payment` sentinel), then the single
update to `registered`/`paid` (through the pre-save hook) and the appended
payment log. -/
def verifyPayment (env : Env) (now : Nat) (inp : VerifyInput) (db : DB) :
    VerifyResult × DB :=
  if inp.razorpay_payment_id.isEmpty || inp.registrationId.isEmpty then
    (VerifyResult.missingFields, db)
  else
    match db.regs.find? (fun r => r.registrationId == inp.registrationId) with
    | none => (VerifyResult.notFound, db)
    | some r =>
      if r.payment_status == PayStatus.paid then (VerifyResult.alreadyPaid, db)
      else if !(r.status == RegStatus.pending_payment) then
        (VerifyResult.badStatus r.status, db)
      else if decide (r.createdAt < now - DELETE_MS) then
        (VerifyResult.expiredDeleted,
         { regs := db.regs.filter (fun x => !(x.registrationId == inp.registrationId))
           logs := db.logs.filter (fun l => !(l.registrationId == inp.registrationId)) })
      else
        if (checkSlotAvailability now r.carnivalName r.selectedBatch
            r.selectedDate db).1.isFull then
          (VerifyResult.slotFull,
           (checkSlotAvailability now r.carnivalName r.selectedBatch
             r.selectedDate db).2)
        else if !(inp.razorpay_signature == "direct_payment")
            && !(env.hmacSig (inp.razorpay_order_id ++ "|" ++ inp.razorpay_payment_id)
                  == inp.razorpay_signature) then
          (VerifyResult.invalidSignature,
           (checkSlotAvailability now r.carnivalName r.selectedBatch
             r.selectedDate db).2)
        else
          (VerifyResult.success,
           { regs := (checkSlotAvailability now r.carnivalName r.selectedBatch
                 r.selectedDate db).2.regs.map (fun x =>
               if x.registrationId == inp.registrationId then
                 verifyUpdated env now inp r
               else x)
             logs := (checkSlotAvailability now r.carnivalName r.selectedBatch
                 r.selectedDate db).2.logs ++ [verifyNewLog env inp r] })

/-- Outcome of the `createOrder` endpoint. -/
inductive OrderResult
  | missingFields
  | notFound
  | ok (orderId : String) (amount : Nat)
  deriving DecidableEq

/-- Function `createOrder`: look the reservation up, derive the fee server-side from
`materialType`, create the gateway order (`orderId` is the id the gateway
returned), store it on the reservation's payment subdocument and `save()`
(through the pre-save hook). -/
def createOrder (now : Nat) (registrationId orderId : String) (db : DB) :
    OrderResult × DB :=
  if registrationId.isEmpty then (OrderResult.missingFields, db)
  else
    match db.regs.find? (fun r => r.registrationId == registrationId) with
    | none => (OrderResult.notFound, db)
    | some r =>
      let amount := if r.materialType then 499 else 299
      let base : PaymentInfo :=
        match r.payment with
        | some p => p
        | none => {}
      let updated := preSaveHook now
        { r with payment := some { base with razorpay_order_id := orderId, amount := amount } }
      (OrderResult.ok orderId amount,
       { db with regs := db.regs.map (fun x =>
           if x.registrationId == registrationId then updated else x) })

/-- Find a reservation by the gateway order id stored on its payment
subdocument (`findOne({'payment.razorpay_order_id': ...})`). -/
def findByOrderId (orderId : String) (db : DB) : Option Reservation :=
  db.regs.find? (fun r =>
    match r.payment with
    | some p => p.razorpay_order_id == orderId
    | none => false)

/-- Replace every reservation carrying the given id (the single mongoose
document save, expressed over the list state). -/
def saveReg (rid : String) (r : Reservation) (regs : List Reservation) :
    List Reservation :=
  regs.map (fun x => if x.registrationId == rid then r else x)

/-- Update `findOneAndUpdate({razorpay_payment_id}, {status}, {upsert:true})`:
update the first matching log, inserting a fresh one when none matches. -/
def setStatusFirst (pid st : String) : List PaymentLog → List PaymentLog
  | [] => []
  | l :: ls =>
      if l.razorpay_payment_id == pid then { l with status := st } :: ls
      else l :: setStatusFirst pid st ls

/-- Upsert of `findOneAndUpdate`, continued. -/
def upsertLogStatus (pid st : String) (logs : List PaymentLog) : List PaymentLog :=
  if logs.any (fun l => l.razorpay_payment_id == pid) then
    setStatusFirst pid st logs
  else logs ++ [{ razorpay_payment_id := pid, status := st }]

/-- Handler `handlePaymentAuthorized`: mark the payment pending and record the
gateway payment id; the `save()` runs the pre-save hook; then append an
`authorized` log entry. -/
def handlePaymentAuthorized (now : Nat) (p : GatewayPayment) (db : DB) : DB :=
  match findByOrderId p.order_id db with
  | none => db
  | some r =>
    let updated := preSaveHook now
      { r with
          payment_status := PayStatus.pending
          payment :=
            match r.payment with
            | some pi => some { pi with razorpay_payment_id := p.id }
            | none => none }
    { regs := saveReg r.registrationId updated db.regs
      logs := db.logs ++
        [{ registrationId := r.registrationId
           razorpay_payment_id := p.id
           razorpay_order_id := p.order_id
           amount := p.amount / 100
           currency := p.currency
           status := "authorized"
           method := p.method }] }

/-- Handler `handlePaymentCaptured`: look the reservation up by order id and — with
no idempotency, status, age or capacity check — set
`payment_status='paid'`, `status='registered'`, replace the payment
subdocument, `save()` (pre-save hook), and upsert the log entry to
`captured`. -/
def handlePaymentCaptured (now : Nat) (p : GatewayPayment) (db : DB) : DB :=
  match findByOrderId p.order_id db with
  | none => db
  | some r =>
    let updated := preSaveHook now
      { r with
          payment_status := PayStatus.paid
          status := RegStatus.registered
          payment := some
            { razorpay_payment_id := p.id
              razorpay_order_id := p.order_id
              amount := p.amount / 100
              currency := p.currency
              status := "paid"
              payment_date := some now
              razorpay_signature := ""
              method := ""
              bank := ""
              wallet := ""
              vpa := "" } }
    { regs := saveReg r.registrationId updated db.regs
      logs := upsertLogStatus p.id "captured" db.logs }

/-- Handler `handlePaymentFailed`: reset the reservation to
`pending_payment`/`pending` (the hold stays live for a retry); the `save()`
runs the pre-save hook; then append a `failed` log entry. -/
def handlePaymentFailed (now : Nat) (p : GatewayPayment) (db : DB) : DB :=
  match findByOrderId p.order_id db with
  | none => db
  | some r =>
    let updated := preSaveHook now
      { r with
          payment_status := PayStatus.pending
          status := RegStatus.pending_payment }
    { regs := saveReg r.registrationId updated db.regs
      logs := db.logs ++
        [{ registrationId := r.registrationId
           razorpay_payment_id := p.id
           razorpay_order_id := p.order_id
           amount := p.amount / 100
           currency := p.currency
           status := "failed" }] }

/-- Handler `handlePaymentRefunded`: the handler assigns `status='refunded'`, a
value outside the schema's `status` enum
(`['pending_payment','registered','expired','cancelled']`), so the
`save()` fails mongoose validation; the handler's `catch` swallows the
error before the log update runs, leaving the state unchanged. -/
def handlePaymentRefunded (_now : Nat) (_p : GatewayPayment) (db : DB) : DB :=
  db

/-- An HTTP response status of the webhook endpoint. -/
inductive HttpStatus
  | ok200
  | bad400
  | err500
  deriving DecidableEq

/-- Endpoint `handleWebhook`: reject a missing or mismatched signature with 400 and
no state change; then read `req.body.payload.payment.entity` — a body
without it throws, and the top-level `catch` answers 500 — dispatch on the
event name (handlers swallow their own errors), and acknowledge with 200. -/
def handleWebhook (env : Env) (now : Nat) (req : WebhookRequest) (db : DB) :
    HttpStatus × DB :=
  match req.signatureHeader with
  | none => (HttpStatus.bad400, db)
  | some sig =>
    if !(env.webhookHmac (env.stringifyBody req.body) == sig) then
      (HttpStatus.bad400, db)
    else
      match req.body.payload with
      | none => (HttpStatus.err500, db)
      | some p =>
        let db1 :=
          if req.body.event == "payment.authorized" then
            handlePaymentAuthorized now p db
          else if req.body.event == "payment.captured" then
            handlePaymentCaptured now p db
          else if req.body.event == "payment.failed" then
            handlePaymentFailed now p db
          else if req.body.event == "payment.refunded" then
            handlePaymentRefunded now p db
          else db
        (HttpStatus.ok200, db1)

/-!
### Lookup-by-code endpoints
-/

/-- Outcome of the `getRegistration` endpoint. -/
inductive LookupResult
  | notFound
  | expiredDeleted
  | ok (r : Reservation)
  deriving DecidableEq

/-- Endpoint `getRegistration`: find by code; lazily delete (registration only) and
answer 404 when it is a `pending_payment` hold older than the 10-minute
threshold; otherwise return it. -/
def getRegistration (now : Nat) (rid : String) (db : DB) : LookupResult × DB :=
  match db.regs.find? (fun r => r.registrationId == rid) with
  | none => (LookupResult.notFound, db)
  | some r =>
    if r.status == RegStatus.pending_payment
        && decide (r.createdAt < now - DELETE_MS) then
      (LookupResult.expiredDeleted,
       { db with regs := db.regs.filter (fun x => !(x.registrationId == rid)) })
    else (LookupResult.ok r, db)

/-- Outcome of the `checkRegistrationStatus` endpoint. -/
inductive StatusResult
  | missingId
  | notFound
  | expiredDeleted
  | ok (r : Reservation) (slotAvailable : Bool)
  deriving DecidableEq

/-- Endpoint `checkRegistrationStatus`: same lazy-expiry deletion as
`getRegistration`; for a live `pending_payment` hold it additionally
re-runs the slot check (with its sweep side effect). -/
def checkRegistrationStatus (now : Nat) (rid : String) (db : DB) :
    StatusResult × DB :=
  if rid.isEmpty then (StatusResult.missingId, db)
  else
    match db.regs.find? (fun r => r.registrationId == rid) with
    | none => (StatusResult.notFound, db)
    | some r =>
      if r.status == RegStatus.pending_payment
          && decide (r.createdAt < now - DELETE_MS) then
        (StatusResult.expiredDeleted,
         { db with regs := db.regs.filter (fun x => !(x.registrationId == rid)) })
      else if r.status == RegStatus.pending_payment then
        (StatusResult.ok r
           !(checkSlotAvailability now r.carnivalName r.selectedBatch
             r.selectedDate db).1.isFull,
         (checkSlotAvailability now r.carnivalName r.selectedBatch
           r.selectedDate db).2)
      else (StatusResult.ok r true, db)

/-- The states reachable from the empty database by the modelled operations
of the program running against a fixed environment `env`. -/
inductive Reachable (env : Env) : DB → Prop
  | init : Reachable env { regs := [], logs := [] }
  | step_register (todayStr : String) (now : Nat) (inp : RegisterInput) {db : DB} :
      Reachable env db → Reachable env (register todayStr now inp db).2
  | step_createOrder (now : Nat) (rid orderId : String) {db : DB} :
      Reachable env db → Reachable env (createOrder now rid orderId db).2
  | step_verifyPayment (now : Nat) (inp : VerifyInput) {db : DB} :
      Reachable env db → Reachable env (verifyPayment env now inp db).2
  | step_webhook (now : Nat) (req : WebhookRequest) {db : DB} :
      Reachable env db → Reachable env (handleWebhook env now req db).2
  | step_getRegistration (now : Nat) (rid : String) {db : DB} :
      Reachable env db → Reachable env (getRegistration now rid db).2
  | step_checkStatus (now : Nat) (rid : String) {db : DB} :
      Reachable env db → Reachable env (checkRegistrationStatus now rid db).2
  | step_checkSlots (now : Nat) (c b d : String) {db : DB} :
      Reachable env db → Reachable env (checkSlotAvailability now c b d db).2
  | step_cleanup (now : Nat) {db : DB} :
      Reachable env db → Reachable env (cleanupExpiredRegistrations now db)

/-- A confirmed (registered+paid) demo reservation used by the concrete
instances below. -/
def demoPaid1 : Reservation :=
  { registrationId := "LS-RD26-00001", carnivalName := "WC", email := "a@b.in",
    phone := "9876543210", childName := "Ann", selectedBatch := "B1",
    selectedDate := "2026-01-26", status := RegStatus.registered,
    payment_status := PayStatus.paid, payment_expires_at := 900000,
    createdAt := 100 }

/-- A second confirmed demo reservation. -/
def demoPaid2 : Reservation :=
  { demoPaid1 with
      registrationId := "LS-RD26-00002"
      childName := "Ben" }

/-- A live pending demo hold (within the 10-minute window at
`now = 1000000`). -/
def demoActive : Reservation :=
  { demoPaid1 with
      registrationId := "LS-RD26-00003"
      status := RegStatus.pending_payment
      payment_status := PayStatus.pending
      createdAt := 950000 }

/-- A stale pending demo hold (`createdAt = 0`, far past the cutoff at
`now = 1000000`). -/
def demoStale : Reservation :=
  { demoPaid1 with
      registrationId := "LS-RD26-00004"
      status := RegStatus.pending_payment
      payment_status := PayStatus.pending
      createdAt := 0 }

/-- A demo database: two confirmed, one live hold, one stale hold. -/
def demoDB : DB :=
  { regs := [demoPaid1, demoPaid2, demoActive, demoStale], logs := [] }

/-!
### C9 — the payment-log cascade of the availability query
-/

/-- A payment log entry attached to the stale demo hold. -/
def c9log : PaymentLog :=
  { registrationId := "LS-RD26-00004", razorpay_payment_id := "pay_9",
    status := "authorized" }

/-- A database holding only the stale pending hold and its payment log. -/
def c9db : DB :=
  { regs := [demoStale], logs := [c9log] }

/-- C2 counterexample input: a cancelled reservation carrying the gateway
order id `order_9`. -/
def c2reg : Reservation :=
  { demoPaid1 with
      registrationId := "LS-RD26-00010"
      status := RegStatus.cancelled
      payment_status := PayStatus.pending
      payment := some ({ razorpay_order_id := "order_9" }) }

/-- The `payment.captured` webhook entity aimed at `order_9`. -/
def c2payment : GatewayPayment :=
  { id := "pay_x", order_id := "order_9" }

/-- The per-document invariant of C3: a registered reservation is paid. -/
def RegPaidOK (r : Reservation) : Prop :=
  r.status = RegStatus.registered → r.payment_status = PayStatus.paid

/-- A concrete environment: constant HMACs, the event name as the
stringified body, and a failing payment fetch. -/
def env0 : Env :=
  { hmacSig := fun _ => "hs"
    webhookHmac := fun _ => "wh"
    stringifyBody := fun b => b.event
    paymentsFetch := fun _ => none }

/-- The registration request of the C3 chain. -/
def c3inp : RegisterInput :=
  { carnivalName := "WC", parentName := "Pat Doe", email := "a@bc.in",
    phone := "9876543210", childName := "Anna", childAge := "7",
    selectedBatch := "B1 ⏰ 10 AM", selectedDate := "2026-01-26",
    availableDates := [] }

/-- State after the registration step of the C3 chain. -/
def c3db1 : DB := (register "2026-01-01" 1000000 c3inp { regs := [], logs := [] }).2

/-- State after attaching the gateway order. -/
def c3db2 : DB := (createOrder 1010000 "LS-RD26-00001" "order_1" c3db1).2

/-- The client payment-confirmation request of the C3 chain (using the
`direct_payment` legacy sentinel). -/
def c3vinp : VerifyInput :=
  { razorpay_payment_id := "pay_1", razorpay_order_id := "order_1",
    razorpay_signature := "direct_payment", registrationId := "LS-RD26-00001" }

/-- State after the successful payment confirmation: registered and paid. -/
def c3db3 : DB := (verifyPayment env0 1020000 c3vinp c3db2).2

/-- A late `payment.authorized` webhook for the same order. -/
def c3req : WebhookRequest :=
  { signatureHeader := some "wh"
    body := { event := "payment.authorized"
              payload := some { id := "pay_2", order_id := "order_1" } } }

/-- State after the late `payment.authorized` webhook. -/
def c3db4 : DB := (handleWebhook env0 1030000 c3req c3db3).2

/-- A registered+paid reservation carrying order `order_3`, for the C3
witness. -/
def c3regd : Reservation :=
  { demoPaid1 with
      registrationId := "LS-RD26-00020"
      payment := some ({ razorpay_order_id := "order_3" }) }

/-- A `payment.authorized` entity aimed at `order_3`. -/
def c3gp2 : GatewayPayment :=
  { id := "pay_7", order_id := "order_3" }

/-- Database for the C3 witness. -/
def c3db5 : DB := { regs := [c3regd], logs := [] }

/-- The reservation produced by the authorized handler in the C3 witness. -/
def c3out : Reservation :=
  (handlePaymentAuthorized 1000000 c3gp2 c3db5).regs.getD 0 c3regd

/-!
### C4 — the role of `payment_expires_at`
-/

/-- C4 counterexample input: a pending hold created 50 seconds ago (well
inside the 10-minute `createdAt` window) whose `payment_expires_at` lies in
the past, carrying order `order_11`. -/
def c4reg : Reservation :=
  { demoPaid1 with
      registrationId := "LS-RD26-00011"
      status := RegStatus.pending_payment
      payment_status := PayStatus.pending
      createdAt := 950000
      payment_expires_at := 900000
      payment := some ({ razorpay_order_id := "order_11" }) }

/-- A `payment.authorized` entity aimed at `order_11`. -/
def c4gp : GatewayPayment :=
  { id := "pay_y", order_id := "order_11" }

/-- Database for the C4 counterexample. -/
def c4db : DB := { regs := [c4reg], logs := [] }

/-- The pending hold of the C3 chain as stored after `createOrder`. -/
def c6r : Reservation := c3db2.regs.getD 0 demoPaid1

/-!
### C7 — the duplicate guard
-/

/-- A registered+paid reservation named `ABC`, matched by the submitted
pattern `A.C` although the names differ. -/
def c7nameReg : Reservation :=
  { demoPaid1 with
      registrationId := "LS-RD26-00030"
      childName := "ABC" }

/-- A paid duplicate (`ANNA`, matched case-insensitively by `Anna`) in the
scope of the C3 registration request. -/
def c7dupReg : Reservation :=
  { demoPaid1 with
      registrationId := "LS-RD26-00031"
      childName := "ANNA"
      email := "a@bc.in" }

/-- Database for the C7 witness. -/
def c7db : DB := { regs := [c7dupReg], logs := [] }

/-!
### C8 — webhook endpoint responses
-/

/-- A correctly signed webhook request whose body carries no
`payload.payment.entity`. -/
def c8req : WebhookRequest :=
  { signatureHeader := some "wh"
    body := { event := "payment.captured", payload := none } }

/-- The C10 registration request: the child name `An(a` builds the invalid
pattern `^An(a$`. -/
def c10inp : RegisterInput :=
  { c3inp with childName := "An(a" }

/-- A registered+paid reservation with exactly the same child name, parent
email, carnival and date as the C10 request. -/
def c10dupReg : Reservation :=
  { demoPaid1 with
      registrationId := "LS-RD26-00032"
      childName := "An(a"
      email := "a@bc.in" }

/-- Database for the C10 witness. -/
def c10db : DB := { regs := [c10dupReg], logs := [] }

/-- The verify request of the C2 witness, aimed at an absent reservation. -/
def c2vinp : VerifyInput :=
  { razorpay_payment_id := "pay_1", razorpay_order_id := "order_1",
    razorpay_signature := "direct_payment", registrationId := "LS-RD26-00099" }

/-!
### Theorems
-/

/-!
### Helper lemmas
-/

/-- Counting with `p` is unaffected by removing elements that `p` rejects. -/
theorem countP_filter_of_imp {α : Type} (p q : α → Bool) (l : List α)
    (h : ∀ a, p a = true → q a = true) :
    (l.filter q).countP p = l.countP p := by
  induction l with
  | nil => rfl
  | cons a t ih =>
      by_cases hq : q a = true
      · simp [List.filter_cons, hq, List.countP_cons, ih]
      · have hp : p a = false := by
          cases hpa : p a
          · rfl
          · exact absurd (h a hpa) hq
        simp [List.filter_cons, hq, List.countP_cons, ih, hp]

/-- The lazy sweep never touches the payment-log collection: the cascade
re-runs the stale query after the deletion and finds no ids. -/
theorem slotSweep_logs (now : Nat) (c b d : String) (db : DB) :
    (slotSweep now c b d db).logs = db.logs := by
  unfold slotSweep
  by_cases h : 0 < db.regs.countP (isStalePending now c b d)
  · have hnil : (db.regs.filter (fun r => !isStalePending now c b d r)).filter
        (isStalePending now c b d) = [] := by
      refine List.filter_eq_nil_iff.mpr ?_
      intro a ha
      have := List.of_mem_filter ha
      simp only [Bool.not_eq_true'] at this
      simp [this]
    simp [h, hnil]
  · simp [h]

/-- A paid registration is never a stale pending hold. -/
theorem isPaidInScope_not_stale (now : Nat) (c b d : String) (r : Reservation)
    (h : isPaidInScope c b d r = true) :
    (!isStalePending now c b d r) = true := by
  simp only [isPaidInScope, Bool.and_eq_true, beq_iff_eq] at h
  simp [isStalePending, h.1.2]

/-- An active pending hold is never a stale pending hold. -/
theorem isActivePending_not_stale (now : Nat) (c b d : String) (r : Reservation)
    (h : isActivePending now c b d r = true) :
    (!isStalePending now c b d r) = true := by
  simp only [isActivePending, Bool.and_eq_true, decide_eq_true_eq] at h
  simp only [isStalePending, Bool.not_eq_true', Bool.and_eq_false_iff]
  right
  simpa using Nat.not_lt.mpr h.2

/-- The sweep leaves the scope's confirmed count unchanged. -/
theorem slotSweep_confirmedCount (now : Nat) (c b d : String) (db : DB) :
    (slotSweep now c b d db).regs.countP (isPaidInScope c b d)
      = confirmedCount c b d db := by
  unfold slotSweep confirmedCount
  by_cases h : 0 < db.regs.countP (isStalePending now c b d)
  · simp only [h, if_true]
    exact countP_filter_of_imp _ _ _ (isPaidInScope_not_stale now c b d)
  · simp [h]

/-- The sweep leaves the scope's active-hold count unchanged. -/
theorem slotSweep_activeHoldCount (now : Nat) (c b d : String) (db : DB) :
    (slotSweep now c b d db).regs.countP (isActivePending now c b d)
      = activeHoldCount now c b d db := by
  unfold slotSweep activeHoldCount
  by_cases h : 0 < db.regs.countP (isStalePending now c b d)
  · simp only [h, if_true]
    exact countP_filter_of_imp _ _ _ (isActivePending_not_stale now c b d)
  · simp [h]

/-- The availability query never touches the payment-log collection. -/
theorem checkSlotAvailability_logs (now : Nat) (c b d : String) (db : DB) :
    (checkSlotAvailability now c b d db).2.logs = db.logs := by
  unfold checkSlotAvailability
  exact slotSweep_logs now c b d db

/-!
### C1 — availability snapshot
-/

/-- C1: for every availability query on a scope key whose date is not the
exempted online date `2026-01-25`, the returned snapshot satisfies
`remaining = max(0, 20 - (confirmedCount + activeHoldCount))` (with the
claim's definitions of the two counts) and `isFull` holds exactly when
`remaining = 0`; for the exempted date `isFull` is `false` regardless of
the occupied count. -/
theorem c1_availability_snapshot :
    (∀ (now : Nat) (c b d : String) (db : DB), d ≠ onlineDate →
      (checkSlotAvailability now c b d db).1.availableSlots
          = BATCH_CAPACITY
              - (confirmedCount c b d db + activeHoldCount now c b d db)
        ∧ ((checkSlotAvailability now c b d db).1.isFull = true
            ↔ (checkSlotAvailability now c b d db).1.availableSlots = 0))
    ∧ (∀ (now : Nat) (c b : String) (db : DB),
        (checkSlotAvailability now c b onlineDate db).1.isFull = false) := by
  constructor
  · intro now c b d db hd
    have hon : (d == onlineDate) = false := beq_eq_false_iff_ne.mpr hd
    unfold checkSlotAvailability
    simp only [hon, slotSweep_confirmedCount, slotSweep_activeHoldCount,
      Bool.false_eq_true, if_false, Bool.not_false, Bool.true_and,
      beq_iff_eq]
    exact ⟨trivial, trivial⟩
  · intro now c b db
    unfold checkSlotAvailability
    simp

/-- Witness for C1 at a concrete scope: two confirmed and one active hold
at `now = 1000000`. -/
theorem c1_availability_snapshot_witness :
    ("2026-01-26" : String) ≠ onlineDate
    ∧ ((checkSlotAvailability 1000000 "WC" "B1" "2026-01-26" demoDB).1.availableSlots
          = BATCH_CAPACITY
              - (confirmedCount "WC" "B1" "2026-01-26" demoDB
                  + activeHoldCount 1000000 "WC" "B1" "2026-01-26" demoDB)
        ∧ ((checkSlotAvailability 1000000 "WC" "B1" "2026-01-26" demoDB).1.isFull = true
            ↔ (checkSlotAvailability 1000000 "WC" "B1" "2026-01-26" demoDB).1.availableSlots = 0)) :=
  ⟨by decide,
   c1_availability_snapshot.1 1000000 "WC" "B1" "2026-01-26" demoDB (by decide)⟩

/-- C9, failing input: the availability query deletes the stale pending
reservation `LS-RD26-00004` from its scope but leaves the reservation's
payment log behind — the source computes the ids for the cascade by
re-running the stale query *after* `deleteMany`, so it finds none. -/
theorem c9_sweep_orphans_payment_log :
    (checkSlotAvailability 1000000 "WC" "B1" "2026-01-26" c9db).2.regs = []
    ∧ (checkSlotAvailability 1000000 "WC" "B1" "2026-01-26" c9db).2.logs = [c9log] := by
  decide

/-!
### C2 — pre-mutation checks of the two payment ingress paths
-/

/-- The pre-save hook leaves a document alone (apart from `updatedAt`) when
its `status` is not `pending_payment`. -/
theorem preSaveHook_of_not_pending (now : Nat) (r : Reservation)
    (h : r.status ≠ RegStatus.pending_payment) :
    preSaveHook now r = { r with updatedAt := now } := by
  unfold preSaveHook
  rw [if_neg]
  intro hc
  exact h hc.1

/-- The confirming update of `verifyPayment` keeps the registration id and
sets `registered`/`paid` (the pre-save hook does not fire on a `registered`
document). -/
theorem verifyUpdated_fields (env : Env) (now : Nat) (inp : VerifyInput)
    (r : Reservation) :
    (verifyUpdated env now inp r).registrationId = r.registrationId
    ∧ (verifyUpdated env now inp r).status = RegStatus.registered
    ∧ (verifyUpdated env now inp r).payment_status = PayStatus.paid := by
  unfold verifyUpdated
  rw [preSaveHook_of_not_pending _ _ (by simp)]
  exact ⟨rfl, rfl, rfl⟩

/-- C2 counterexample: the webhook `payment.captured` handler sets
`status=registered` on a reservation that fails check (c) — its status is
`cancelled`, not `pending_payment` — so the two ingress paths do not
perform the same pre-mutation checks. -/
theorem c2_captured_registers_cancelled_reservation :
    c2reg.status = RegStatus.cancelled
    ∧ (handlePaymentCaptured 1000000 c2payment
        { regs := [c2reg], logs := [] }).regs.map (fun r => r.status)
        = [RegStatus.registered] := by
  decide

/-- C2 amended: only the client `verifyPayment` path performs the
pre-mutation checks — absent reservation, paid short-circuit,
non-`pending_payment` rejection, lazy-expiry deletion, slot re-check — in
that order; the webhook `payment.captured` handler only requires that a
reservation with the order id exists and then unconditionally sets it
`registered`/`paid`. -/
theorem c2_ingress_checks_client_only :
    (∀ (env : Env) (now : Nat) (inp : VerifyInput) (db : DB),
        inp.razorpay_payment_id.isEmpty = false →
        inp.registrationId.isEmpty = false →
        db.regs.find? (fun r => r.registrationId == inp.registrationId) = none →
        verifyPayment env now inp db = (VerifyResult.notFound, db))
    ∧ (∀ (env : Env) (now : Nat) (inp : VerifyInput) (db : DB) (r : Reservation),
        inp.razorpay_payment_id.isEmpty = false →
        inp.registrationId.isEmpty = false →
        db.regs.find? (fun x => x.registrationId == inp.registrationId) = some r →
        r.payment_status = PayStatus.paid →
        verifyPayment env now inp db = (VerifyResult.alreadyPaid, db))
    ∧ (∀ (env : Env) (now : Nat) (inp : VerifyInput) (db : DB) (r : Reservation),
        inp.razorpay_payment_id.isEmpty = false →
        inp.registrationId.isEmpty = false →
        db.regs.find? (fun x => x.registrationId == inp.registrationId) = some r →
        r.payment_status ≠ PayStatus.paid →
        r.status ≠ RegStatus.pending_payment →
        verifyPayment env now inp db = (VerifyResult.badStatus r.status, db))
    ∧ (∀ (env : Env) (now : Nat) (inp : VerifyInput) (db : DB) (r : Reservation),
        inp.razorpay_payment_id.isEmpty = false →
        inp.registrationId.isEmpty = false →
        db.regs.find? (fun x => x.registrationId == inp.registrationId) = some r →
        r.payment_status ≠ PayStatus.paid →
        r.status = RegStatus.pending_payment →
        r.createdAt < now - DELETE_MS →
        verifyPayment env now inp db
          = (VerifyResult.expiredDeleted,
             { regs := db.regs.filter (fun x => !(x.registrationId == inp.registrationId))
               logs := db.logs.filter (fun l => !(l.registrationId == inp.registrationId)) }))
    ∧ (∀ (env : Env) (now : Nat) (inp : VerifyInput) (db : DB) (r : Reservation),
        inp.razorpay_payment_id.isEmpty = false →
        inp.registrationId.isEmpty = false →
        db.regs.find? (fun x => x.registrationId == inp.registrationId) = some r →
        r.payment_status ≠ PayStatus.paid →
        r.status = RegStatus.pending_payment →
        ¬(r.createdAt < now - DELETE_MS) →
        (checkSlotAvailability now r.carnivalName r.selectedBatch r.selectedDate db).1.isFull = true →
        verifyPayment env now inp db
          = (VerifyResult.slotFull,
             (checkSlotAvailability now r.carnivalName r.selectedBatch r.selectedDate db).2))
    ∧ (∀ (now : Nat) (p : GatewayPayment) (db : DB) (r : Reservation),
        findByOrderId p.order_id db = some r →
        ∀ x ∈ (handlePaymentCaptured now p db).regs,
          x.registrationId = r.registrationId →
          x.status = RegStatus.registered ∧ x.payment_status = PayStatus.paid) := by
  refine ⟨?_, ?_, ?_, ?_, ?_, ?_⟩
  · intro env now inp db h1 h2 hf
    unfold verifyPayment
    simp [h1, h2, hf]
  · intro env now inp db r h1 h2 hf hp
    unfold verifyPayment
    simp [h1, h2, hf, hp]
  · intro env now inp db r h1 h2 hf hp hs
    have hp' : (r.payment_status == PayStatus.paid) = false :=
      beq_eq_false_iff_ne.mpr hp
    have hs' : (r.status == RegStatus.pending_payment) = false :=
      beq_eq_false_iff_ne.mpr hs
    unfold verifyPayment
    simp [h1, h2, hf, hp', hs']
  · intro env now inp db r h1 h2 hf hp hs hage
    have hp' : (r.payment_status == PayStatus.paid) = false :=
      beq_eq_false_iff_ne.mpr hp
    unfold verifyPayment
    simp [h1, h2, hf, hp', hs, hage]
  · intro env now inp db r h1 h2 hf hp hs hage hfull
    have hp' : (r.payment_status == PayStatus.paid) = false :=
      beq_eq_false_iff_ne.mpr hp
    unfold verifyPayment
    simp [h1, h2, hf, hp', hs, hage, hfull]
  · intro now p db r hfind x hx hid
    unfold handlePaymentCaptured at hx
    rw [hfind] at hx
    simp only [saveReg, List.mem_map] at hx
    obtain ⟨a, _, ha⟩ := hx
    by_cases hcase : (a.registrationId == r.registrationId) = true
    · rw [if_pos hcase] at ha
      subst ha
      rw [preSaveHook_of_not_pending _ _ (by simp)]
      exact ⟨rfl, rfl⟩
    · rw [if_neg hcase] at ha
      subst ha
      exact absurd (beq_iff_eq.mpr hid) hcase

/-!
### C3 — the registered-implies-paid invariant
-/

/-- The sweep deletes exactly the scope's stale pending holds. -/
theorem slotSweep_regs (now : Nat) (c b d : String) (db : DB) :
    (slotSweep now c b d db).regs
      = db.regs.filter (fun r => !isStalePending now c b d r) := by
  unfold slotSweep
  by_cases h : 0 < db.regs.countP (isStalePending now c b d)
  · simp [h]
  · have h0 : db.regs.countP (isStalePending now c b d) = 0 :=
      Nat.eq_zero_of_not_pos h
    have hall := List.countP_eq_zero.mp h0
    simp only [h, if_false]
    refine (List.filter_eq_self.mpr ?_).symm
    intro a ha
    simpa using hall a ha

/-- The availability query's state change on registrations is exactly the
deletion of the scope's stale pending holds. -/
theorem checkSlotAvailability_regs (now : Nat) (c b d : String) (db : DB) :
    (checkSlotAvailability now c b d db).2.regs
      = db.regs.filter (fun r => !isStalePending now c b d r) := by
  unfold checkSlotAvailability
  exact slotSweep_regs now c b d db

/-- Every reservation in the state after a `verifyPayment` call either was
already in the input state or is the freshly confirmed one
(`registered`/`paid`, carrying the request's registration id). -/
theorem verifyPayment_mem_regs (env : Env) (now : Nat) (inp : VerifyInput)
    (db : DB) (x : Reservation)
    (hx : x ∈ (verifyPayment env now inp db).2.regs) :
    x ∈ db.regs
      ∨ (x.registrationId = inp.registrationId
          ∧ x.status = RegStatus.registered
          ∧ x.payment_status = PayStatus.paid) := by
  unfold verifyPayment at hx
  split at hx
  · exact Or.inl hx
  · split at hx
    · exact Or.inl hx
    · rename_i r heq
      split at hx
      · exact Or.inl hx
      · split at hx
        · exact Or.inl hx
        · split at hx
          · exact Or.inl (List.mem_of_mem_filter hx)
          · split at hx
            · rw [checkSlotAvailability_regs] at hx
              exact Or.inl (List.mem_of_mem_filter hx)
            · split at hx
              · rw [checkSlotAvailability_regs] at hx
                exact Or.inl (List.mem_of_mem_filter hx)
              · simp only [checkSlotAvailability_regs, List.mem_map] at hx
                obtain ⟨a, ha, hax⟩ := hx
                by_cases hid : (a.registrationId == inp.registrationId) = true
                · rw [if_pos hid] at hax
                  subst hax
                  refine Or.inr ?_
                  obtain ⟨h1, h2, h3⟩ := verifyUpdated_fields env now inp r
                  refine ⟨?_, h2, h3⟩
                  rw [h1]
                  simpa using List.find?_some heq
                · rw [if_neg hid] at hax
                  subst hax
                  exact Or.inl (List.mem_of_mem_filter ha)

/-- C3 counterexample: a reachable state (register → create order → verify
payment → late `payment.authorized` webhook) holding a reservation with
`status=registered` and `payment_status=pending` — the authorized handler
reset the payment status without touching the business status. -/
theorem c3_reachable_registered_unpaid :
    Reachable env0 c3db4
    ∧ c3db4.regs.any
        (fun r => r.status == RegStatus.registered
          && !(r.payment_status == PayStatus.paid)) = true := by
  constructor
  · exact Reachable.step_webhook 1030000 c3req
      (Reachable.step_verifyPayment 1020000 c3vinp
        (Reachable.step_createOrder 1010000 "LS-RD26-00001" "order_1"
          (Reachable.step_register "2026-01-01" 1000000 c3inp Reachable.init)))
  · decide

/-- C3 amended: every code path that sets `status=registered` — the client
confirmation update and the webhook captured update — sets
`payment_status=paid` in the same update, so both preserve the
registered-implies-paid implication document-wise; the invariant
nevertheless fails on reachable states because the `payment.authorized`
handler sets `payment_status=pending` while leaving a `registered` status
unchanged. -/
theorem c3_registered_paid_paths :
    (∀ (env : Env) (now : Nat) (inp : VerifyInput) (db : DB),
        (∀ r ∈ db.regs, RegPaidOK r) →
        ∀ x ∈ (verifyPayment env now inp db).2.regs, RegPaidOK x)
    ∧ (∀ (now : Nat) (p : GatewayPayment) (db : DB),
        (∀ r ∈ db.regs, RegPaidOK r) →
        ∀ x ∈ (handlePaymentCaptured now p db).regs, RegPaidOK x)
    ∧ (∀ (now : Nat) (p : GatewayPayment) (db : DB) (r : Reservation),
        findByOrderId p.order_id db = some r →
        r.status = RegStatus.registered →
        ∀ x ∈ (handlePaymentAuthorized now p db).regs,
          x.registrationId = r.registrationId →
          x.status = RegStatus.registered ∧ x.payment_status = PayStatus.pending) := by
  refine ⟨?_, ?_, ?_⟩
  · intro env now inp db hdb x hx
    rcases verifyPayment_mem_regs env now inp db x hx with hmem | ⟨_, _, hpaid⟩
    · exact hdb x hmem
    · intro _
      exact hpaid
  · intro now p db hdb x hx
    unfold handlePaymentCaptured at hx
    split at hx
    · exact hdb x hx
    · rename_i r heq
      simp only [saveReg, List.mem_map] at hx
      obtain ⟨a, ha, hax⟩ := hx
      by_cases hid : (a.registrationId == r.registrationId) = true
      · rw [if_pos hid] at hax
        subst hax
        rw [preSaveHook_of_not_pending _ _ (by simp)]
        intro _
        rfl
      · rw [if_neg hid] at hax
        subst hax
        exact hdb a ha
  · intro now p db r hfind hr x hx hid
    unfold handlePaymentAuthorized at hx
    rw [hfind] at hx
    simp only [saveReg, List.mem_map] at hx
    obtain ⟨a, ha, hax⟩ := hx
    by_cases hcase : (a.registrationId == r.registrationId) = true
    · rw [if_pos hcase] at hax
      subst hax
      rw [preSaveHook_of_not_pending _ _ (by simp [hr])]
      exact ⟨by simp [hr], rfl⟩
    · rw [if_neg hcase] at hax
      subst hax
      exact absurd (beq_iff_eq.mpr hid) hcase

/-- Witness for the amended C3 at a concrete input: the authorized handler
turns the registered+paid reservation into registered+pending. -/
theorem c3_registered_paid_paths_witness :
    findByOrderId c3gp2.order_id c3db5 = some c3regd
    ∧ c3regd.status = RegStatus.registered
    ∧ c3out ∈ (handlePaymentAuthorized 1000000 c3gp2 c3db5).regs
    ∧ c3out.registrationId = c3regd.registrationId
    ∧ (c3out.status = RegStatus.registered
        ∧ c3out.payment_status = PayStatus.pending) :=
  ⟨by decide, by decide, by decide, by decide,
   c3_registered_paid_paths.2.2 1000000 c3gp2 c3db5 c3regd (by decide) (by decide)
     c3out (by decide) (by decide)⟩

/-- C4 counterexample: at `now = 1000000` the hold is *not* past the
`createdAt` deletion cutoff, yet the authorized-webhook save flips it to
`status=expired`/`payment_status=expired` — a state transition driven by
`payment_expires_at` (through the model's pre-save hook), and a flagging
rather than a deletion. -/
theorem c4_expires_at_drives_transition :
    ¬(c4reg.createdAt < 1000000 - DELETE_MS)
    ∧ (handlePaymentAuthorized 1000000 c4gp c4db).regs.map
        (fun r => (r.status, r.payment_status))
        = [(RegStatus.expired, PayStatus.expired)] := by
  constructor
  · decide
  · decide

/-- C4 amended: `payment_expires_at` influences reservation state through
exactly one mechanism — the schema's pre-save hook, which *flags* a
`pending_payment` document past `payment_expires_at` as
`expired`/`expired` whenever it is saved (and leaves the two statuses alone
otherwise); all expiry checks of the read/sweep paths use only
`createdAt < now − 10min` and delete the reservation outright. -/
theorem c4_expiry_mechanisms :
    (∀ (now : Nat) (r : Reservation),
        r.status = RegStatus.pending_payment →
        r.payment_expires_at < now →
        (preSaveHook now r).status = RegStatus.expired
          ∧ (preSaveHook now r).payment_status = PayStatus.expired)
    ∧ (∀ (now : Nat) (r : Reservation),
        ¬(r.status = RegStatus.pending_payment ∧ r.payment_expires_at < now) →
        (preSaveHook now r).status = r.status
          ∧ (preSaveHook now r).payment_status = r.payment_status)
    ∧ (∀ (now : Nat) (db : DB),
        (db.regs.map (fun r => r.registrationId)).Nodup →
        (cleanupExpiredRegistrations now db).regs
          = db.regs.filter (fun r => !isStaleSystemWide now r))
    ∧ (∀ (now : Nat) (rid : String) (db : DB) (r : Reservation),
        db.regs.find? (fun x => x.registrationId == rid) = some r →
        (((getRegistration now rid db).1 = LookupResult.expiredDeleted
            ↔ (r.status = RegStatus.pending_payment
                ∧ r.createdAt < now - DELETE_MS))
          ∧ ((getRegistration now rid db).1 = LookupResult.expiredDeleted →
              (getRegistration now rid db).2.regs
                = db.regs.filter (fun x => !(x.registrationId == rid))))) := by
  refine ⟨?_, ?_, ?_, ?_⟩
  · intro now r h1 h2
    unfold preSaveHook
    rw [if_pos ⟨h1, h2⟩]
    exact ⟨rfl, rfl⟩
  · intro now r h
    unfold preSaveHook
    rw [if_neg h]
    exact ⟨rfl, rfl⟩
  · intro now db hnodup
    unfold cleanupExpiredRegistrations
    by_cases hlen :
        0 < ((db.regs.filter (isStaleSystemWide now)).map
          (fun r => r.registrationId)).length
    · simp only [hlen, if_true]
      refine List.filter_congr ?_
      intro a ha
      by_cases hst : isStaleSystemWide now a = true
      · have hmem : a.registrationId ∈
            (db.regs.filter (isStaleSystemWide now)).map
              (fun r => r.registrationId) :=
          List.mem_map_of_mem _ (List.mem_filter.mpr ⟨ha, hst⟩)
        simp [hst, hmem]
      · have hnomem : a.registrationId ∉
            (db.regs.filter (isStaleSystemWide now)).map
              (fun r => r.registrationId) := by
          intro hmem
          obtain ⟨x, hxmem, hxid⟩ := List.mem_map.mp hmem
          have hxdb := List.mem_of_mem_filter hxmem
          have hxst := List.of_mem_filter hxmem
          have : x = a := List.inj_on_of_nodup_map hnodup hxdb ha hxid
          rw [this] at hxst
          exact hst hxst
        simp only [Bool.not_eq_true] at hst
        simp [hst, hnomem]
    · have h0 : (db.regs.filter (isStaleSystemWide now)) = [] := by
        rcases hemp : db.regs.filter (isStaleSystemWide now) with _ | ⟨h, t⟩
        · rfl
        · rw [hemp] at hlen
          simp at hlen
      simp only [hlen, if_false]
      have hall := List.filter_eq_nil_iff.mp h0
      refine (List.filter_eq_self.mpr ?_).symm
      intro a ha
      simpa using hall a ha
  · intro now rid db r hfind
    by_cases hc : (r.status == RegStatus.pending_payment
        && decide (r.createdAt < now - DELETE_MS)) = true
    · have hc' := hc
      simp only [Bool.and_eq_true, beq_iff_eq, decide_eq_true_eq] at hc'
      refine ⟨⟨fun _ => hc', fun _ => ?_⟩, fun _ => ?_⟩
      · simp [getRegistration, hfind, hc]
      · simp [getRegistration, hfind, hc]
    · have hc2 : (r.status == RegStatus.pending_payment
          && decide (r.createdAt < now - DELETE_MS)) = false := by
        cases hb : (r.status == RegStatus.pending_payment
            && decide (r.createdAt < now - DELETE_MS))
        · rfl
        · exact absurd hb hc
      have hc' : ¬(r.status = RegStatus.pending_payment
          ∧ r.createdAt < now - DELETE_MS) := by
        intro h2
        apply hc
        simp [h2.1, h2.2]
      refine ⟨⟨fun habs => ?_, fun h2 => absurd h2 hc'⟩, fun habs => ?_⟩
      · simp [getRegistration, hfind, hc2] at habs
      · simp [getRegistration, hfind, hc2] at habs

/-- Witness for the amended C4 at a concrete input: the pre-save hook flags
the C4 reservation as expired at `now = 1000000`. -/
theorem c4_expiry_mechanisms_witness :
    c4reg.status = RegStatus.pending_payment
    ∧ c4reg.payment_expires_at < 1000000
    ∧ ((preSaveHook 1000000 c4reg).status = RegStatus.expired
        ∧ (preSaveHook 1000000 c4reg).payment_status = PayStatus.expired) :=
  ⟨by decide, by decide,
   c4_expiry_mechanisms.1 1000000 c4reg (by decide) (by decide)⟩

/-!
### C5 — lazy expiry on every lookup-by-code path
-/

/-- After deleting every document with a given id, a lookup of that id
finds nothing. -/
theorem find?_filter_ne_none (rid : String) (regs : List Reservation) :
    (regs.filter (fun x => !(x.registrationId == rid))).find?
      (fun x => x.registrationId == rid) = none := by
  refine List.find?_eq_none.mpr ?_
  intro a ha
  have hmem := List.of_mem_filter ha
  simp only [Bool.not_eq_true'] at hmem
  simp [hmem]

/-- A search with an unsatisfiable predicate finds nothing. -/
theorem find?_false_none {α : Type} (l : List α) :
    l.find? (fun _ => false) = none := by
  refine List.find?_eq_none.mpr ?_
  intro a _
  simp

/-- C5: each lookup-by-code operation (get details, check status, verify
payment), invoked on a `pending_payment` reservation whose `createdAt` is
older than `now − 10min`, deletes the reservation, answers with an
expired error, and a subsequent lookup of the code finds nothing.  (For the
verify-payment path the reservation must not already be `paid` and the
request must carry a payment id, or the handler answers earlier; a
`pending_payment` hold is never `paid` on any creation or update path.) -/
theorem c5_lazy_expiry_on_lookups :
    ∀ (now : Nat) (rid : String) (db : DB) (r : Reservation),
      db.regs.find? (fun x => x.registrationId == rid) = some r →
      r.status = RegStatus.pending_payment →
      r.createdAt < now - DELETE_MS →
      rid.isEmpty = false →
      ((getRegistration now rid db).1 = LookupResult.expiredDeleted
        ∧ ∀ now2, (getRegistration now2 rid (getRegistration now rid db).2).1
            = LookupResult.notFound)
      ∧ ((checkRegistrationStatus now rid db).1 = StatusResult.expiredDeleted
        ∧ ∀ now2, (getRegistration now2 rid (checkRegistrationStatus now rid db).2).1
            = LookupResult.notFound)
      ∧ (∀ (env : Env) (inp : VerifyInput),
          inp.registrationId = rid →
          inp.razorpay_payment_id.isEmpty = false →
          r.payment_status ≠ PayStatus.paid →
          (verifyPayment env now inp db).1 = VerifyResult.expiredDeleted
            ∧ ∀ now2, (getRegistration now2 rid (verifyPayment env now inp db).2).1
                = LookupResult.notFound) := by
  intro now rid db r hfind hst hage hrid
  have hcond : (r.status == RegStatus.pending_payment
      && decide (r.createdAt < now - DELETE_MS)) = true := by
    simp [hst, hage]
  refine ⟨⟨?_, ?_⟩, ⟨?_, ?_⟩, ?_⟩
  · simp [getRegistration, hfind, hcond]
  · intro now2
    have hregs : (getRegistration now rid db).2.regs
        = db.regs.filter (fun x => !(x.registrationId == rid)) := by
      simp [getRegistration, hfind, hcond]
    generalize hg : (getRegistration now rid db).2 = db2 at hregs
    simp [getRegistration, hregs, find?_filter_ne_none, find?_false_none]
  · simp [checkRegistrationStatus, hrid, hfind, hcond]
  · intro now2
    have hregs : (checkRegistrationStatus now rid db).2.regs
        = db.regs.filter (fun x => !(x.registrationId == rid)) := by
      simp [checkRegistrationStatus, hrid, hfind, hcond]
    generalize hg : (checkRegistrationStatus now rid db).2 = db2 at hregs
    simp [getRegistration, hregs, find?_filter_ne_none, find?_false_none]
  · intro env inp hinp hpid hnp
    subst hinp
    have hp' : (r.payment_status == PayStatus.paid) = false :=
      beq_eq_false_iff_ne.mpr hnp
    have hdec : decide (r.createdAt < now - DELETE_MS) = true := by
      simpa using hage
    constructor
    · simp [verifyPayment, hpid, hrid, hfind, hp', hst, hdec]
    · intro now2
      have hregs : (verifyPayment env now inp db).2.regs
          = db.regs.filter (fun x => !(x.registrationId == inp.registrationId)) := by
        simp [verifyPayment, hpid, hrid, hfind, hp', hst, hdec]
      generalize hg : (verifyPayment env now inp db).2 = db2 at hregs
      simp [getRegistration, hregs, find?_filter_ne_none, find?_false_none]

/-- Witness for C5 at a concrete input: the stale demo hold is deleted by
`getRegistration` and a later lookup finds nothing. -/
theorem c5_lazy_expiry_on_lookups_witness :
    demoDB.regs.find? (fun x => x.registrationId == "LS-RD26-00004") = some demoStale
    ∧ demoStale.status = RegStatus.pending_payment
    ∧ demoStale.createdAt < 1000000 - DELETE_MS
    ∧ ("LS-RD26-00004" : String).isEmpty = false
    ∧ (getRegistration 1000000 "LS-RD26-00004" demoDB).1 = LookupResult.expiredDeleted
    ∧ (getRegistration 1100000 "LS-RD26-00004"
        (getRegistration 1000000 "LS-RD26-00004" demoDB).2).1 = LookupResult.notFound :=
  ⟨by decide, by decide, by decide, by decide,
   (c5_lazy_expiry_on_lookups 1000000 "LS-RD26-00004" demoDB demoStale
     (by decide) (by decide) (by decide) (by decide)).1.1,
   (c5_lazy_expiry_on_lookups 1000000 "LS-RD26-00004" demoDB demoStale
     (by decide) (by decide) (by decide) (by decide)).1.2 1100000⟩

/-!
### C6 — idempotent client payment confirmation
-/

/-- C6: a successful client payment confirmation sets the reservation
`registered`/`paid` and appends exactly one `captured` log entry; a second
call for the same reservation short-circuits on the paid check, answering
success while changing neither the reservation nor the log collection. -/
theorem c6_verify_idempotent :
    ∀ (env : Env) (now now2 : Nat) (inp : VerifyInput) (db : DB) (r : Reservation),
      db.regs.find? (fun x => x.registrationId == inp.registrationId) = some r →
      inp.razorpay_payment_id.isEmpty = false →
      inp.registrationId.isEmpty = false →
      r.payment_status ≠ PayStatus.paid →
      r.status = RegStatus.pending_payment →
      ¬(r.createdAt < now - DELETE_MS) →
      (checkSlotAvailability now r.carnivalName r.selectedBatch
        r.selectedDate db).1.isFull = false →
      (inp.razorpay_signature = "direct_payment"
        ∨ env.hmacSig (inp.razorpay_order_id ++ "|" ++ inp.razorpay_payment_id)
            = inp.razorpay_signature) →
      db.logs.countP (fun l => l.razorpay_payment_id == inp.razorpay_payment_id
        && l.status == "captured") = 0 →
      (verifyPayment env now inp db).1 = VerifyResult.success
      ∧ (verifyPayment env now inp db).2.logs.countP (fun l =>
            l.razorpay_payment_id == inp.razorpay_payment_id
              && l.status == "captured") = 1
      ∧ (∀ x ∈ (verifyPayment env now inp db).2.regs,
          x.registrationId = inp.registrationId →
          x.status = RegStatus.registered ∧ x.payment_status = PayStatus.paid)
      ∧ verifyPayment env now2 inp (verifyPayment env now inp db).2
          = (VerifyResult.alreadyPaid, (verifyPayment env now inp db).2) := by
  intro env now now2 inp db r hfind hpid hrid hnp hst hage hfull hsig hlogs0
  have hp' : (r.payment_status == PayStatus.paid) = false :=
    beq_eq_false_iff_ne.mpr hnp
  have hdec : decide (r.createdAt < now - DELETE_MS) = false := by
    simpa using hage
  have hsigb : (!(inp.razorpay_signature == "direct_payment")
      && !(env.hmacSig (inp.razorpay_order_id ++ "|" ++ inp.razorpay_payment_id)
            == inp.razorpay_signature)) = false := by
    rcases hsig with h | h
    · simp [h]
    · simp [h]
  have heq : verifyPayment env now inp db
      = (VerifyResult.success,
         { regs := (checkSlotAvailability now r.carnivalName r.selectedBatch
               r.selectedDate db).2.regs.map (fun x =>
             if x.registrationId == inp.registrationId then
               verifyUpdated env now inp r else x)
           logs := (checkSlotAvailability now r.carnivalName r.selectedBatch
               r.selectedDate db).2.logs ++ [verifyNewLog env inp r] }) := by
    simp [verifyPayment, hpid, hrid, hfind, hp', hst, hdec, hfull, hsigb]
  have hbeq : (r.registrationId == inp.registrationId) = true := by
    have h0 := List.find?_some hfind
    simpa using h0
  have hD : ∀ x ∈ (verifyPayment env now inp db).2.regs,
      x.registrationId = inp.registrationId →
      x.status = RegStatus.registered ∧ x.payment_status = PayStatus.paid := by
    intro x hx hxid
    rw [heq] at hx
    simp only [List.mem_map] at hx
    obtain ⟨a, _, hax⟩ := hx
    by_cases hid : (a.registrationId == inp.registrationId) = true
    · rw [if_pos hid] at hax
      subst hax
      exact ⟨(verifyUpdated_fields env now inp r).2.1,
        (verifyUpdated_fields env now inp r).2.2⟩
    · rw [if_neg hid] at hax
      subst hax
      exact absurd (beq_iff_eq.mpr hxid) hid
  refine ⟨by rw [heq], ?_, hD, ?_⟩
  · rw [heq]
    simp [checkSlotAvailability_logs, List.countP_append, hlogs0, verifyNewLog]
  · have hmemr : r ∈ db.regs := List.mem_of_find?_eq_some hfind
    have hstale : isStalePending now r.carnivalName r.selectedBatch
        r.selectedDate r = false := by
      simp [isStalePending, hdec]
    have hmem1 : verifyUpdated env now inp r ∈ (verifyPayment env now inp db).2.regs := by
      rw [heq]
      refine List.mem_map.mpr ⟨r, ?_, by rw [if_pos hbeq]⟩
      rw [checkSlotAvailability_regs]
      exact List.mem_filter.mpr ⟨hmemr, by simp [hstale]⟩
    have hisSome : ((verifyPayment env now inp db).2.regs.find?
        (fun x => x.registrationId == inp.registrationId)).isSome := by
      refine List.find?_isSome.mpr ⟨verifyUpdated env now inp r, hmem1, ?_⟩
      rw [(verifyUpdated_fields env now inp r).1]
      exact hbeq
    rcases hopt : (verifyPayment env now inp db).2.regs.find?
        (fun x => x.registrationId == inp.registrationId) with _ | y
    · rw [hopt] at hisSome
      simp at hisSome
    · have hy : (y.registrationId == inp.registrationId) = true := by
        have h0 := List.find?_some hopt
        simpa using h0
      have hymem := List.mem_of_find?_eq_some hopt
      obtain ⟨_, hypaid⟩ := hD y hymem (by simpa using hy)
      generalize hg : (verifyPayment env now inp db).2 = db2 at hopt ⊢
      simp [verifyPayment, hpid, hrid, hopt, hypaid]

/-- Witness for C6 on the concrete chain: first confirmation succeeds with
one `captured` log entry, the second call short-circuits unchanged. -/
theorem c6_verify_idempotent_witness :
    c3db2.regs.find? (fun x => x.registrationId == c3vinp.registrationId) = some c6r
    ∧ (verifyPayment env0 1020000 c3vinp c3db2).1 = VerifyResult.success
    ∧ (verifyPayment env0 1020000 c3vinp c3db2).2.logs.countP (fun l =>
        l.razorpay_payment_id == c3vinp.razorpay_payment_id
          && l.status == "captured") = 1
    ∧ verifyPayment env0 1500000 c3vinp (verifyPayment env0 1020000 c3vinp c3db2).2
        = (VerifyResult.alreadyPaid, (verifyPayment env0 1020000 c3vinp c3db2).2) :=
  ⟨by decide,
   (c6_verify_idempotent env0 1020000 1500000 c3vinp c3db2 c6r (by decide)
     (by decide) (by decide) (by decide) (by decide) (by decide) (by decide)
     (Or.inl (by decide)) (by decide)).1,
   (c6_verify_idempotent env0 1020000 1500000 c3vinp c3db2 c6r (by decide)
     (by decide) (by decide) (by decide) (by decide) (by decide) (by decide)
     (Or.inl (by decide)) (by decide)).2.1,
   (c6_verify_idempotent env0 1020000 1500000 c3vinp c3db2 c6r (by decide)
     (by decide) (by decide) (by decide) (by decide) (by decide) (by decide)
     (Or.inl (by decide)) (by decide)).2.2.2⟩

/-- C7 counterexample: the duplicate check reports a duplicate for the
submitted child name `A.C` against a database whose only candidate is named
`ABC` — no reservation with a child name equal to the submitted one up to
letter case exists, yet `exists=true` (the `.` is a regex wildcard). -/
theorem c7_dot_matches_different_name :
    (checkDuplicateRegistration "WC" "a@b.in" "9876543210" "A.C" "2026-01-26"
      { regs := [c7nameReg], logs := [] }).found = true
    ∧ ([c7nameReg].all (fun r =>
        !(strToLower r.childName == strToLower (strTrim "A.C")))) = true := by
  decide

/-- Tokenising a pattern of alphanumeric-or-space characters yields exactly
the literal tokens. -/
theorem patToks_all_lit (cs : List Char)
    (h : ∀ c ∈ cs, c.isAlphanum ∨ c = ' ') :
    patToks cs = some (cs.map RTok.lit) := by
  induction cs with
  | nil => rfl
  | cons c rest ih =>
      have hc := h c (List.mem_cons_self c rest)
      have hrest : ∀ x ∈ rest, x.isAlphanum ∨ x = ' ' := by
        intro x hx
        exact h x (List.mem_cons_of_mem c hx)
      have hdot : c ≠ '.' := by
        rcases hc with hc | hc
        · intro habs
          rw [habs] at hc
          exact absurd hc (by decide)
        · intro habs
          rw [habs] at hc
          exact absurd hc (by decide)
      have hmeta : c ∉ ['\\', '(', ')', '[', ']', '{', '}', '*', '+', '?', '|', '^', '$'] := by
        intro hmem
        rcases hc with hc | hc
        · simp only [List.mem_cons, List.not_mem_nil, or_false] at hmem
          rcases hmem with rfl | rfl | rfl | rfl | rfl | rfl | rfl | rfl | rfl | rfl | rfl | rfl | rfl
            <;> exact absurd hc (by decide)
        · subst hc
          exact absurd hmem (by decide)
      unfold patToks
      split
      · rename_i heq
        exact absurd heq (by simp)
      · rename_i rest2 heq
        injection heq with h1 h2
        exact absurd h1 hdot
      · rename_i c2 rest2 heq
        injection heq with h1 h2
        subst h1
        subst h2
        rw [if_neg hmeta, ih hrest]
        rfl

/-- Matching a literal-token pattern is exactly case-folded equality of the
character lists. -/
theorem toksMatch_lit_iff (pat : List Char) :
    ∀ s : List Char, toksMatch (pat.map RTok.lit) s = true
      ↔ pat.map Char.toLower = s.map Char.toLower := by
  induction pat with
  | nil =>
      intro s
      cases s with
      | nil => simp [toksMatch]
      | cons x xs => simp [toksMatch]
  | cons c cs ih =>
      intro s
      cases s with
      | nil => simp [toksMatch]
      | cons x xs =>
          simp only [List.map_cons, toksMatch, Bool.and_eq_true, beq_iff_eq,
            List.cons.injEq]
          exact and_congr Iff.rfl (ih xs)

/-- C7 amended: the duplicate check reports a duplicate exactly when the
pattern built from the submitted name is a valid regex and some reservation
in the same carnival and date has `status=registered`, `payment_status=paid`,
a matching parent email or phone, and a child name *matched by the
case-insensitive anchored regex* built from the trimmed submitted name —
which coincides with equality up to letter case only for names without
regex metacharacters (an invalid pattern reports no duplicate); the
registration endpoint answers 409 precisely when the check reports a
duplicate. -/
theorem c7_duplicate_guard :
    (∀ (c e p n d : String) (db : DB),
        (checkDuplicateRegistration c e p n d db).found = true
          ↔ (jsRegexValid (dupNamePattern n) = true
              ∧ ∃ r ∈ db.regs, r.carnivalName = c ∧ r.selectedDate = d
                  ∧ jsAnchoredIMatch (strTrim n) r.childName = true
                  ∧ r.status = RegStatus.registered
                  ∧ r.payment_status = PayStatus.paid
                  ∧ (r.email = strTrim (strToLower e) ∨ r.phone = strTrim p)))
    ∧ (∀ (pat s : String),
        (∀ c ∈ pat.data, c.isAlphanum ∨ c = ' ') →
        (jsAnchoredIMatch pat s = true ↔ strToLower pat = strToLower s))
    ∧ (∀ (todayStr : String) (now : Nat) (inp : RegisterInput) (db : DB),
        validateRegistrationData todayStr inp = true →
        inp.carnivalName.isEmpty = false →
        validateDate inp.selectedDate inp.availableDates todayStr = true →
        validateBatch inp.selectedBatch = true →
        ((∃ eid, (register todayStr now inp db).1 = RegisterResult.duplicate eid)
          ↔ (checkDuplicateRegistration inp.carnivalName inp.email inp.phone
              inp.childName inp.selectedDate db).found = true)) := by
  refine ⟨?_, ?_, ?_⟩
  · intro c e p n d db
    by_cases hv : jsRegexValid (dupNamePattern n) = true
    · have hfound : (checkDuplicateRegistration c e p n d db).found
          = (db.regs.find? (fun r =>
              r.carnivalName == c
                && r.selectedDate == d
                && jsAnchoredIMatch (strTrim n) r.childName
                && r.status == RegStatus.registered
                && r.payment_status == PayStatus.paid
                && (r.email == strTrim (strToLower e)
                    || r.phone == strTrim p))).isSome := by
        unfold checkDuplicateRegistration
        rw [if_pos hv]
        rcases hopt : db.regs.find? _ with _ | r
        · simp [hopt]
        · simp [hopt]
      rw [hfound]
      rw [List.find?_isSome]
      constructor
      · rintro ⟨r, hr, hdup⟩
        simp only [Bool.and_eq_true, Bool.or_eq_true, beq_iff_eq] at hdup
        exact ⟨hv, r, hr, hdup.1.1.1.1.1, hdup.1.1.1.1.2, hdup.1.1.1.2,
          hdup.1.1.2, hdup.1.2, hdup.2⟩
      · rintro ⟨-, r, hr, h1, h2, h3, h4, h5, h6⟩
        refine ⟨r, hr, ?_⟩
        simp only [Bool.and_eq_true, Bool.or_eq_true, beq_iff_eq]
        exact ⟨⟨⟨⟨⟨h1, h2⟩, h3⟩, h4⟩, h5⟩, h6⟩
    · have hv2 : jsRegexValid (dupNamePattern n) = false := by
        cases hb : jsRegexValid (dupNamePattern n)
        · rfl
        · exact absurd hb hv
      simp [checkDuplicateRegistration, hv2]
  · intro pat s hsimple
    have hred : jsAnchoredIMatch pat s = toksMatch (pat.data.map RTok.lit) s.data := by
      unfold jsAnchoredIMatch
      rw [patToks_all_lit pat.data hsimple]
    rw [hred, toksMatch_lit_iff]
    constructor
    · intro h
      simp only [strToLower]
      rw [h]
    · intro h
      simp only [strToLower] at h
      injection h
  · intro todayStr now inp db hval hcarn hdate hbatch
    cases hfound : (checkDuplicateRegistration inp.carnivalName inp.email
        inp.phone inp.childName inp.selectedDate db).found
    · constructor
      · rintro ⟨eid, heid⟩
        by_cases hfull : (checkSlotAvailability now inp.carnivalName
            inp.selectedBatch inp.selectedDate db).1.isFull = true
        · rw [show (register todayStr now inp db).1 = RegisterResult.slotFull from by
            simp [register, hval, hcarn, hdate, hbatch, hfound, hfull]] at heid
          exact absurd heid (by simp)
        · have hfull2 : (checkSlotAvailability now inp.carnivalName
              inp.selectedBatch inp.selectedDate db).1.isFull = false := by
            cases hb : (checkSlotAvailability now inp.carnivalName
                inp.selectedBatch inp.selectedDate db).1.isFull
            · rfl
            · exact absurd hb hfull
          rw [show (register todayStr now inp db).1
              = RegisterResult.created (generateRegistrationId
                  (checkSlotAvailability now inp.carnivalName inp.selectedBatch
                    inp.selectedDate db).2) from by
            simp [register, hval, hcarn, hdate, hbatch, hfound, hfull2]] at heid
          exact absurd heid (by simp)
      · intro habs
        exact absurd habs (by simp)
    · have hres : (register todayStr now inp db).1
          = RegisterResult.duplicate
              (match (checkDuplicateRegistration inp.carnivalName inp.email
                  inp.phone inp.childName inp.selectedDate db).data with
               | some r => r.registrationId
               | none => "") := by
        simp [register, hval, hcarn, hdate, hbatch, hfound]
      exact ⟨fun _ => rfl, fun _ => ⟨_, hres⟩⟩

/-- Witness for the amended C7 at a concrete input: the paid duplicate is
reported and the registration endpoint answers with the duplicate
rejection. -/
theorem c7_duplicate_guard_witness :
    validateRegistrationData "2026-01-01" c3inp = true
    ∧ (checkDuplicateRegistration c3inp.carnivalName c3inp.email c3inp.phone
        c3inp.childName c3inp.selectedDate c7db).found = true
    ∧ ((∃ eid, (register "2026-01-01" 1000000 c3inp c7db).1
          = RegisterResult.duplicate eid)
        ↔ (checkDuplicateRegistration c3inp.carnivalName c3inp.email c3inp.phone
            c3inp.childName c3inp.selectedDate c7db).found = true) :=
  ⟨by decide, by decide,
   c7_duplicate_guard.2.2 "2026-01-01" 1000000 c3inp c7db
     (by decide) (by decide) (by decide) (by decide)⟩

/-- C8 counterexample: a correctly signed request whose body lacks
`payload.payment.entity` makes the dispatcher throw, and the endpoint
answers 500 — not the success acknowledgment the claim requires for every
correctly signed request. -/
theorem c8_500_on_missing_payload :
    (env0.webhookHmac (env0.stringifyBody c8req.body) == "wh") = true
    ∧ handleWebhook env0 1000000 c8req demoDB = (HttpStatus.err500, demoDB) := by
  decide

/-- C8 amended: a missing or mismatched signature is answered 400 with no
state change; a correctly signed body without `payload.payment.entity`
makes the top-level handler throw and answer 500, again with no state
change; every other correctly signed request — errors inside the individual
event handlers are swallowed — is acknowledged with 200. -/
theorem c8_webhook_responses :
    (∀ (env : Env) (now : Nat) (body : WebhookBody) (db : DB),
        handleWebhook env now { signatureHeader := none, body := body } db
          = (HttpStatus.bad400, db))
    ∧ (∀ (env : Env) (now : Nat) (sig : String) (body : WebhookBody) (db : DB),
        env.webhookHmac (env.stringifyBody body) ≠ sig →
        handleWebhook env now { signatureHeader := some sig, body := body } db
          = (HttpStatus.bad400, db))
    ∧ (∀ (env : Env) (now : Nat) (sig : String) (body : WebhookBody) (db : DB),
        env.webhookHmac (env.stringifyBody body) = sig →
        body.payload = none →
        handleWebhook env now { signatureHeader := some sig, body := body } db
          = (HttpStatus.err500, db))
    ∧ (∀ (env : Env) (now : Nat) (sig : String) (body : WebhookBody) (db : DB)
        (p : GatewayPayment),
        env.webhookHmac (env.stringifyBody body) = sig →
        body.payload = some p →
        (handleWebhook env now { signatureHeader := some sig, body := body } db).1
          = HttpStatus.ok200) := by
  refine ⟨?_, ?_, ?_, ?_⟩
  · intro env now body db
    simp [handleWebhook]
  · intro env now sig body db hne
    have hb : (env.webhookHmac (env.stringifyBody body) == sig) = false :=
      beq_eq_false_iff_ne.mpr hne
    simp [handleWebhook, hb]
  · intro env now sig body db heq hnone
    have hb : (env.webhookHmac (env.stringifyBody body) == sig) = true :=
      beq_iff_eq.mpr heq
    simp [handleWebhook, hb, hnone]
  · intro env now sig body db p heq hsome
    have hb : (env.webhookHmac (env.stringifyBody body) == sig) = true :=
      beq_iff_eq.mpr heq
    simp [handleWebhook, hb, hsome]

/-- Witness for the amended C8 at a concrete input: a correctly signed
`payment.authorized` request is acknowledged with 200. -/
theorem c8_webhook_responses_witness :
    env0.webhookHmac (env0.stringifyBody c3req.body) = "wh"
    ∧ c3req.body.payload = some { id := "pay_2", order_id := "order_1" }
    ∧ (handleWebhook env0 1030000
        { signatureHeader := some "wh", body := c3req.body } demoDB).1
        = HttpStatus.ok200 :=
  ⟨by decide, by decide,
   c8_webhook_responses.2.2.2 env0 1030000 "wh" c3req.body demoDB
     { id := "pay_2", order_id := "order_1" } (by decide) (by decide)⟩

/-!
### C10 — the duplicate guard fails open
-/

/-- C10: when the regex built from the submitted child name is invalid (the
constructor throws), the duplicate check catches the error and returns
`exists=false` with an error marker, and the registration endpoint — which
only consults `exists` — proceeds to create the reservation. -/
theorem c10_duplicate_guard_fails_open :
    ∀ (todayStr : String) (now : Nat) (inp : RegisterInput) (db : DB),
      validateRegistrationData todayStr inp = true →
      inp.carnivalName.isEmpty = false →
      validateDate inp.selectedDate inp.availableDates todayStr = true →
      validateBatch inp.selectedBatch = true →
      jsRegexValid (dupNamePattern inp.childName) = false →
      (checkSlotAvailability now inp.carnivalName inp.selectedBatch
        inp.selectedDate db).1.isFull = false →
      (checkDuplicateRegistration inp.carnivalName inp.email inp.phone
          inp.childName inp.selectedDate db)
        = { found := false, data := none, errored := true }
      ∧ (register todayStr now inp db).1
          = RegisterResult.created (generateRegistrationId
              (checkSlotAvailability now inp.carnivalName inp.selectedBatch
                inp.selectedDate db).2)
      ∧ (register todayStr now inp db).2.regs.length
          = (checkSlotAvailability now inp.carnivalName inp.selectedBatch
              inp.selectedDate db).2.regs.length + 1 := by
  intro todayStr now inp db hval hcarn hdate hbatch hv hfull
  have hdup : checkDuplicateRegistration inp.carnivalName inp.email inp.phone
      inp.childName inp.selectedDate db
      = { found := false, data := none, errored := true } := by
    simp [checkDuplicateRegistration, hv]
  refine ⟨hdup, ?_, ?_⟩
  · simp [register, hval, hcarn, hdate, hbatch, hdup, hfull]
  · simp [register, hval, hcarn, hdate, hbatch, hdup, hfull]

/-- Witness for C10 at a concrete input: despite an identical paid
registration being present, the invalid pattern makes the check report no
duplicate and the endpoint creates the reservation. -/
theorem c10_duplicate_guard_fails_open_witness :
    jsRegexValid (dupNamePattern c10inp.childName) = false
    ∧ strToLower c10dupReg.childName = strToLower (strTrim c10inp.childName)
    ∧ ((checkDuplicateRegistration c10inp.carnivalName c10inp.email c10inp.phone
          c10inp.childName c10inp.selectedDate c10db)
        = { found := false, data := none, errored := true }
      ∧ (register "2026-01-01" 1000000 c10inp c10db).1
          = RegisterResult.created (generateRegistrationId
              (checkSlotAvailability 1000000 c10inp.carnivalName
                c10inp.selectedBatch c10inp.selectedDate c10db).2)
      ∧ (register "2026-01-01" 1000000 c10inp c10db).2.regs.length
          = (checkSlotAvailability 1000000 c10inp.carnivalName
              c10inp.selectedBatch c10inp.selectedDate c10db).2.regs.length + 1) :=
  ⟨by decide, by decide,
   c10_duplicate_guard_fails_open "2026-01-01" 1000000 c10inp c10db
     (by decide) (by decide) (by decide) (by decide) (by decide) (by decide)⟩

/-- Witness for the amended C2 at a concrete input: the client path rejects
a request for an absent reservation without touching the state. -/
theorem c2_ingress_checks_client_only_witness :
    c2vinp.razorpay_payment_id.isEmpty = false
    ∧ c2vinp.registrationId.isEmpty = false
    ∧ demoDB.regs.find? (fun r => r.registrationId == c2vinp.registrationId) = none
    ∧ verifyPayment env0 1000000 c2vinp demoDB = (VerifyResult.notFound, demoDB) :=
  ⟨by decide, by decide, by decide,
   c2_ingress_checks_client_only.1 env0 1000000 c2vinp demoDB
     (by decide) (by decide) (by decide)⟩
